import Mathlib

/- Shallow embedding of the SecureBoot and Verify command families of
cryptoauthlib (src/lib/calib/calib_secureboot.c and
src/lib/calib/calib_verify.c).

External collaborators (packet allocator, command executor, nonce and host
crypto helpers, configuration-zone reads) are modelled as oracles collected
in a `CalibEnv`.  Byte buffers are total functions from index to byte value,
nullable C pointers are `Option`s, and out-pointers become fields of the
result records (`none` meaning the buffer was left unwritten).  Each embedded
function also returns the list of collaborator invocations it performed (its
trace), so that pre-transport rejection and step-ordering properties can be
stated and checked. -/

/-- ATCA status codes distinguished by the two embedded source files; every
other device or library status is carried opaquely by `otherError`. -/
inductive ATCA_STATUS where
  | ATCA_SUCCESS
  | ATCA_BAD_PARAM
  | ATCA_INVALID_SIZE
  | ATCA_ALLOC_FAILURE
  | ATCA_CHECKMAC_VERIFY_FAILED
  | otherError (code : Nat)
deriving DecidableEq

/-- Device-variant tag, from `device->mIface.mIfaceCFG->devtype`.  Only the
ATECC608 tag is distinguished by the embedded code. -/
inductive ATCADeviceType where
  | ATECC108A
  | ATECC508A
  | ATECC608
  | otherDev (n : Nat)
deriving DecidableEq

/-- Device context, flattened to the single field the embedded sources read
(`device->mIface.mIfaceCFG->devtype`). -/
structure ATCADeviceRec where
  devtype : ATCADeviceType
deriving DecidableEq

/-- Byte buffer, modelled as a total function from byte index to byte value. -/
abbrev Buf : Type := Nat → Nat

/-- Semantics of `memcpy(&dst[off], src, len)` on buffer models. -/
def memcpyBuf (dst : Buf) (off : Nat) (src : Buf) (len : Nat) : Buf :=
  fun i => if off ≤ i ∧ i < off + len then src (i - off) else dst i

/-- The all-zero buffer produced by `memset(packet, 0x00, sizeof(ATCAPacket))`. -/
def zeroBuf : Buf := fun _ => 0

/-- Command packet: mode byte (`param1`), 16-bit `param2`, data area.  The
opcode, size and CRC framing fields are written by the external `atVerify` and
`atSecureBoot` helpers and are not modelled. -/
structure ATCAPacket where
  param1 : Nat
  param2 : Nat
  data : Buf

/- Protocol constants.  The headers defining them are not part of src/, so
the values below are modelled from the spec (fixed sizes of section 6, wire
layout of section 6, and the mode names of sections 4.4 and 4.5); the claims
settled here depend only on the fixed sizes and on the mode constants being
distinguished by the low three (mask) bits. -/

/-- Modelled from the spec: signature size, 64 bytes (section 6). -/
abbrev ATCA_SIG_SIZE : Nat := 64

/-- Modelled from the spec: public key size, 64 bytes (section 6). -/
abbrev ATCA_PUB_KEY_SIZE : Nat := 64

/-- Modelled from the spec: other-data size for validate/invalidate, 19
bytes (section 6). -/
abbrev VERIFY_OTHER_DATA_SIZE : Nat := 19

/-- Modelled from the spec: MAC size, 32 bytes (section 6). -/
abbrev MAC_SIZE : Nat := 32

/-- Modelled from the spec: digest size, 32 bytes (section 6). -/
abbrev SECUREBOOT_DIGEST_SIZE : Nat := 32

/-- Modelled from the spec: signature size, 64 bytes (section 6). -/
abbrev SECUREBOOT_SIGNATURE_SIZE : Nat := 64

/-- Modelled from the spec: MAC size, 32 bytes (section 6). -/
abbrev SECUREBOOT_MAC_SIZE : Nat := 32

/-- Modelled from the spec: response layout is count byte, payload, 2-byte
integrity check (section 6); the count field sits at index 0 of the data
area. -/
abbrev ATCA_COUNT_IDX : Nat := 0

/-- Modelled from the spec: response payload starts right after the count
byte. -/
abbrev ATCA_RSP_DATA_IDX : Nat := 1

/-- Modelled from the spec: non-payload bytes of a response (count byte plus
2-byte integrity check, section 6 wire layout). -/
abbrev ATCA_PACKET_OVERHEAD : Nat := 3

/-- Modelled from the spec: size of a SecureBoot response carrying a 32-byte
MAC (count byte + 32 payload bytes + 2-byte integrity check). -/
abbrev SECUREBOOT_RSP_SIZE_MAC : Nat := 35

/-- Modelled from the spec: minimum command frame size (count, opcode, mode
byte, 2-byte parameter, 2-byte integrity check). -/
abbrev ATCA_CMD_SIZE_MIN : Nat := 7

/-- Modelled from the spec: mask selecting the verify mode from the mode
byte. -/
abbrev VERIFY_MODE_MASK : Nat := 0x07

/-- Modelled from the spec: Stored verify mode. -/
abbrev VERIFY_MODE_STORED : Nat := 0x00

/-- Modelled from the spec: ValidateExternal verify mode. -/
abbrev VERIFY_MODE_VALIDATE_EXTERNAL : Nat := 0x01

/-- Modelled from the spec: External verify mode. -/
abbrev VERIFY_MODE_EXTERNAL : Nat := 0x02

/-- Modelled from the spec: Validate verify mode. -/
abbrev VERIFY_MODE_VALIDATE : Nat := 0x03

/-- Modelled from the spec: Invalidate verify mode. -/
abbrev VERIFY_MODE_INVALIDATE : Nat := 0x07

/-- Modelled from the spec: message source is TempKey (legacy target). -/
abbrev VERIFY_MODE_SOURCE_TEMPKEY : Nat := 0x00

/-- Modelled from the spec: message source is the message digest buffer. -/
abbrev VERIFY_MODE_SOURCE_MSGDIGBUF : Nat := 0x20

/-- Modelled from the spec: mode flag requesting a validating MAC. -/
abbrev VERIFY_MODE_MAC_FLAG : Nat := 0x80

/-- Modelled from the spec: key/curve identifier for the P256 curve in
External mode. -/
abbrev VERIFY_KEY_P256 : Nat := 0x0004

/-- Modelled from the spec: nonce target TempKey (legacy). -/
abbrev NONCE_MODE_TARGET_TEMPKEY : Nat := 0x00

/-- Modelled from the spec: nonce target message digest buffer. -/
abbrev NONCE_MODE_TARGET_MSGDIGBUF : Nat := 0x40

/-- Modelled from the spec: nonce seed-update mode. -/
abbrev NONCE_MODE_SEED_UPDATE : Nat := 0x00

/-- Modelled from the spec: SecureBoot mode flag for encrypted digest and
validating MAC. -/
abbrev SECUREBOOT_MODE_ENC_MAC_FLAG : Nat := 0x80

/-- Modelled from the spec: SecureBoot Full mode (digest and signature
supplied). -/
abbrev SECUREBOOT_MODE_FULL : Nat := 0x05

/-- Modelled from the spec: SecureBoot FullStore mode (stored signature). -/
abbrev SECUREBOOT_MODE_FULLSTORE : Nat := 0x06

/-- Modelled from the spec: configuration zone identifier. -/
abbrev ATCA_ZONE_CONFIG : Nat := 0x00

/-- Modelled from the spec: byte offset of the 2-byte SecureBootConfig field
in the configuration zone. -/
abbrev SECUREBOOTCONFIG_OFFSET : Nat := 70

/-- Collaborator invocations recorded in traces. -/
inductive CalibEvent where
  | execCmd (param1 param2 : Nat)
  | nonceLoad (target msgLen : Nat)
  | nonceBase (mode zeroParam : Nat)
  | hostNonce
  | sbootEnc
  | readZone (zone slot offset len : Nat)
  | hostVerifyMac
  | hostSbootMac
deriving DecidableEq

/-- Oracles for the external collaborators consumed by the two embedded
source files, plus the build configuration constant `CA_MAX_PACKET_SIZE`.
Local host-crypto helpers (`atcah_nonce`, `atcah_secureboot_enc`,
`atcah_verify_mac`, `atcah_secureboot_mac`) live in host/atca_host.c, which
is not under src/; only their statuses and output bytes matter to the
embedded control flow, so they are oracles here as well. -/
structure CalibEnv where
  CA_MAX_PACKET_SIZE : Nat
  allocOk : Bool
  atVerifyStatus : ATCADeviceType → Nat → Nat → ATCA_STATUS
  atSecureBootStatus : ATCADeviceType → Nat → Nat → ATCA_STATUS
  execute : ATCAPacket → ATCA_STATUS × Buf
  nonceLoad : Nat → ATCA_STATUS
  nonceBase : ATCA_STATUS
  hostNonceStatus : ATCA_STATUS
  sbootEncStatus : ATCA_STATUS
  sbootDigestEnc : Buf
  verifyMacStatus : ATCA_STATUS
  verifyHostMac : List Nat
  readZoneStatus : ATCA_STATUS
  readZoneBuf : Nat → Nat
  sbootMacStatus : Nat → ATCA_STATUS
  sbootHostMac : Nat → List Nat
  junk : List Nat

/-- Result of a low-level command function (`calib_verify` or
`calib_secureboot`): the returned status, the bytes written to the caller's
`mac` buffer (`none` when it was left unwritten), the packet handed to the
executor (`none` when the executor was never invoked), and the trace. -/
structure CmdOut where
  status : ATCA_STATUS
  macOut : Option (List Nat)
  sent : Option ATCAPacket
  trace : List CalibEvent

/-- Result of a high-level wrapper: status, the value stored through the
`is_verified` out-pointer (`none` when it was never written), and the
trace. -/
structure WrapOut where
  status : ATCA_STATUS
  isVerified : Option Bool
  trace : List CalibEvent

/-- Packet built by calib_verify (calib_verify.c lines 123-137): zeroed
packet, `param1 = mode`, `param2 = key_id`, signature copied to offset 0,
then the public key (External mode) or the other data (Validate/Invalidate
modes) copied to offset `ATCA_SIG_SIZE`. -/
def calib_verify_build (mode key_id : Nat) (signature : Buf)
    (public_key other_data : Option Buf) : ATCAPacket :=
  let verify_mode := mode &&& VERIFY_MODE_MASK
  let d1 := memcpyBuf zeroBuf 0 signature ATCA_SIG_SIZE
  let d2 :=
    if verify_mode = VERIFY_MODE_EXTERNAL then
      match public_key with
      | some pk => memcpyBuf d1 ATCA_SIG_SIZE pk ATCA_PUB_KEY_SIZE
      | none => d1
    else d1
  let d3 :=
    if verify_mode = VERIFY_MODE_VALIDATE ∨ verify_mode = VERIFY_MODE_INVALIDATE then
      match other_data with
      | some od => memcpyBuf d2 ATCA_SIG_SIZE od VERIFY_OTHER_DATA_SIZE
      | none => d2
    else d2
  ⟨mode, key_id, d3⟩

/-- Embedding of `calib_verify` (calib_verify.c lines 71-161).

Note on the capacity checks (source lines 95-113): when
`CA_MAX_PACKET_SIZE` is below the requirement of the requested mode the
source assigns `ATCA_INVALID_SIZE` to `status`, but — unlike every other
rejection in the function — does not `break` out of the `do/while`, so
control falls through to the packet build and the assignment is overwritten
by the `atVerify` result (or by `ATCA_ALLOC_FAILURE`) before it can be
returned.  The dead assignments are recorded here as unused lets so the
control flow stays aligned with the source. -/
def calib_verify (env : CalibEnv) (device : Option ATCADeviceRec) (mode : Nat)
    (key_id : Nat) (signature public_key other_data : Option Buf)
    (macWanted : Bool) : CmdOut :=
  let verify_mode := mode &&& VERIFY_MODE_MASK
  match device, signature with
  | none, _ => ⟨.ATCA_BAD_PARAM, none, none, []⟩
  | _, none => ⟨.ATCA_BAD_PARAM, none, none, []⟩
  | some dev, some sig =>
    if verify_mode = VERIFY_MODE_EXTERNAL ∧ public_key.isNone = true then
      ⟨.ATCA_BAD_PARAM, none, none, []⟩
    else if (verify_mode = VERIFY_MODE_VALIDATE ∨ verify_mode = VERIFY_MODE_INVALIDATE)
        ∧ other_data.isNone = true then
      ⟨.ATCA_BAD_PARAM, none, none, []⟩
    else
      -- dead store, see the doc comment: no break follows in the source
      let _sizeRejectExternal :=
        env.CA_MAX_PACKET_SIZE < ATCA_CMD_SIZE_MIN + ATCA_SIG_SIZE + ATCA_PUB_KEY_SIZE
          ∧ verify_mode = VERIFY_MODE_EXTERNAL
      let _sizeRejectValidate :=
        env.CA_MAX_PACKET_SIZE < ATCA_CMD_SIZE_MIN + ATCA_SIG_SIZE + VERIFY_OTHER_DATA_SIZE
          ∧ (verify_mode = VERIFY_MODE_VALIDATE ∨ verify_mode = VERIFY_MODE_INVALIDATE)
      if env.allocOk = false then
        ⟨.ATCA_ALLOC_FAILURE, none, none, []⟩
      else
        let packet := calib_verify_build mode key_id sig public_key other_data
        match env.atVerifyStatus dev.devtype packet.param1 packet.param2 with
        | .ATCA_SUCCESS =>
          let er := env.execute packet
          match er.1 with
          | .ATCA_SUCCESS =>
            let resp := er.2
            let macOut :=
              if macWanted = true ∧ ATCA_PACKET_OVERHEAD + MAC_SIZE ≤ resp ATCA_COUNT_IDX then
                some ((List.range MAC_SIZE).map (fun i => resp (ATCA_RSP_DATA_IDX + i)))
              else none
            ⟨.ATCA_SUCCESS, macOut, some packet, [CalibEvent.execCmd packet.param1 packet.param2]⟩
          | s => ⟨s, none, some packet, [CalibEvent.execCmd packet.param1 packet.param2]⟩
        | s => ⟨s, none, none, []⟩

/-- Packet built by calib_secureboot (calib_secureboot.c lines 87-97):
zeroed packet, `param1 = mode`, `param2 = param2`, digest copied to offset
0, then the signature — when present — copied to offset
`SECUREBOOT_DIGEST_SIZE`. -/
def calib_secureboot_build (mode param2 : Nat) (digest : Buf)
    (signature : Option Buf) : ATCAPacket :=
  let d1 := memcpyBuf zeroBuf 0 digest SECUREBOOT_DIGEST_SIZE
  let d2 :=
    match signature with
    | some s => memcpyBuf d1 SECUREBOOT_DIGEST_SIZE s SECUREBOOT_SIGNATURE_SIZE
    | none => d1
  ⟨mode, param2, d2⟩

/-- Embedding of `calib_secureboot` (calib_secureboot.c lines 56-120).

Note on the capacity check (source lines 69-77): when `CA_MAX_PACKET_SIZE`
is below `ATCA_CMD_SIZE_MIN + SECUREBOOT_DIGEST_SIZE +
SECUREBOOT_SIGNATURE_SIZE` and a signature is supplied, the source assigns
`ATCA_INVALID_SIZE` to `status` but does not `break`, so the assignment is
overwritten below before it can be returned; it is recorded as an unused
let. -/
def calib_secureboot (env : CalibEnv) (device : Option ATCADeviceRec)
    (mode param2 : Nat) (digest signature : Option Buf) (macWanted : Bool) :
    CmdOut :=
  match device, digest with
  | none, _ => ⟨.ATCA_BAD_PARAM, none, none, []⟩
  | _, none => ⟨.ATCA_BAD_PARAM, none, none, []⟩
  | some dev, some dig =>
    -- dead store, see the doc comment: no break follows in the source
    let _sizeRejectSig :=
      env.CA_MAX_PACKET_SIZE <
        ATCA_CMD_SIZE_MIN + SECUREBOOT_DIGEST_SIZE + SECUREBOOT_SIGNATURE_SIZE
        ∧ signature.isSome = true
    if env.allocOk = false then
      ⟨.ATCA_ALLOC_FAILURE, none, none, []⟩
    else
      let packet := calib_secureboot_build mode param2 dig signature
      match env.atSecureBootStatus dev.devtype packet.param1 packet.param2 with
      | .ATCA_SUCCESS =>
        let er := env.execute packet
        match er.1 with
        | .ATCA_SUCCESS =>
          let resp := er.2
          let macOut :=
            if macWanted = true ∧ SECUREBOOT_RSP_SIZE_MAC ≤ resp ATCA_COUNT_IDX then
              some ((List.range SECUREBOOT_MAC_SIZE).map (fun i => resp (ATCA_RSP_DATA_IDX + i)))
            else none
          ⟨.ATCA_SUCCESS, macOut, some packet, [CalibEvent.execCmd packet.param1 packet.param2]⟩
        | s => ⟨s, none, some packet, [CalibEvent.execCmd packet.param1 packet.param2]⟩
      | s => ⟨s, none, none, []⟩

/-- Embedding of `calib_verify_extern` (calib_verify.c lines 331-370): load
the 32-byte message into the device (message digest buffer on the ATECC608,
TempKey otherwise), then delegate to `calib_verify` with the External mode
constant, treating a command-level verify mismatch as success with
`is_verified = false`.  The Lean name differs from the source name for
tooling reasons only. -/
def calib_verify_external (env : CalibEnv) (device : Option ATCADeviceRec)
    (message signature public_key : Option Buf) (ivNull : Bool) : WrapOut :=
  match device, message, signature, public_key with
  | some dev, some _msg, some _sig, some _pk =>
    if ivNull = true then ⟨.ATCA_BAD_PARAM, none, []⟩
    else
      -- *is_verified = false happens here, before any fallible step
      let nonce_target :=
        if dev.devtype = ATCADeviceType.ATECC608 then NONCE_MODE_TARGET_MSGDIGBUF
        else NONCE_MODE_TARGET_TEMPKEY
      let verify_source :=
        if dev.devtype = ATCADeviceType.ATECC608 then VERIFY_MODE_SOURCE_MSGDIGBUF
        else VERIFY_MODE_SOURCE_TEMPKEY
      match env.nonceLoad nonce_target with
      | .ATCA_SUCCESS =>
        let v := calib_verify env device (VERIFY_MODE_EXTERNAL ||| verify_source)
          VERIFY_KEY_P256 signature public_key none false
        let st :=
          if v.status = ATCA_STATUS.ATCA_CHECKMAC_VERIFY_FAILED then ATCA_STATUS.ATCA_SUCCESS
          else v.status
        ⟨st, some (decide (v.status = ATCA_STATUS.ATCA_SUCCESS)),
          CalibEvent.nonceLoad nonce_target 32 :: v.trace⟩
      | s => ⟨s, some false, [CalibEvent.nonceLoad nonce_target 32]⟩
  | _, _, _, _ => ⟨.ATCA_BAD_PARAM, none, []⟩

/-- Embedding of `calib_verify_stored` (calib_verify.c lines 392-430): load
the 32-byte message into the device (message digest buffer on the ATECC608,
TempKey otherwise), then delegate to `calib_verify` with the Stored mode
constant, treating a command-level verify mismatch as success with
`is_verified = false`. -/
def calib_verify_stored (env : CalibEnv) (device : Option ATCADeviceRec)
    (message signature : Option Buf) (key_id : Nat) (ivNull : Bool) : WrapOut :=
  match device, message, signature with
  | some dev, some _msg, some _sig =>
    if ivNull = true then ⟨.ATCA_BAD_PARAM, none, []⟩
    else
      -- *is_verified = false happens here, before any fallible step
      let nonce_target :=
        if dev.devtype = ATCADeviceType.ATECC608 then NONCE_MODE_TARGET_MSGDIGBUF
        else NONCE_MODE_TARGET_TEMPKEY
      let verify_source :=
        if dev.devtype = ATCADeviceType.ATECC608 then VERIFY_MODE_SOURCE_MSGDIGBUF
        else VERIFY_MODE_SOURCE_TEMPKEY
      match env.nonceLoad nonce_target with
      | .ATCA_SUCCESS =>
        let v := calib_verify env device (VERIFY_MODE_STORED ||| verify_source)
          key_id signature none none false
        let st :=
          if v.status = ATCA_STATUS.ATCA_CHECKMAC_VERIFY_FAILED then ATCA_STATUS.ATCA_SUCCESS
          else v.status
        ⟨st, some (decide (v.status = ATCA_STATUS.ATCA_SUCCESS)),
          CalibEvent.nonceLoad nonce_target 32 :: v.trace⟩
      | s => ⟨s, some false, [CalibEvent.nonceLoad nonce_target 32]⟩
  | _, _, _ => ⟨.ATCA_BAD_PARAM, none, []⟩

/-- Embedding of `calib_verify_stored_with_tempkey` (calib_verify.c lines
451-475): delegate directly to `calib_verify` with the Stored mode constant
and the TempKey source, treating a command-level verify mismatch as success
with `is_verified = false`. -/
def calib_verify_stored_with_tempkey (env : CalibEnv)
    (device : Option ATCADeviceRec) (signature : Option Buf) (key_id : Nat)
    (ivNull : Bool) : WrapOut :=
  match device, signature with
  | some _dev, some _sig =>
    if ivNull = true then ⟨.ATCA_BAD_PARAM, none, []⟩
    else
      -- *is_verified = false happens here, before any fallible step
      let v := calib_verify env device
        (VERIFY_MODE_STORED ||| VERIFY_MODE_SOURCE_TEMPKEY) key_id signature
        none none false
      let st :=
        if v.status = ATCA_STATUS.ATCA_CHECKMAC_VERIFY_FAILED then ATCA_STATUS.ATCA_SUCCESS
        else v.status
      ⟨st, some (decide (v.status = ATCA_STATUS.ATCA_SUCCESS)), v.trace⟩
  | _, _ => ⟨.ATCA_BAD_PARAM, none, []⟩

/-- Embedding of `calib_verify_validate` (calib_verify.c lines 497-515):
delegate to `calib_verify` with the Validate mode constant, treating a
command-level verify mismatch as success with `is_verified = false`. -/
def calib_verify_validate (env : CalibEnv) (device : Option ATCADeviceRec)
    (key_id : Nat) (signature other_data : Option Buf) (ivNull : Bool) :
    WrapOut :=
  match device, signature, other_data with
  | some _dev, some _sig, some _od =>
    if ivNull = true then ⟨.ATCA_BAD_PARAM, none, []⟩
    else
      let v := calib_verify env device VERIFY_MODE_VALIDATE key_id signature
        none other_data false
      let st :=
        if v.status = ATCA_STATUS.ATCA_CHECKMAC_VERIFY_FAILED then ATCA_STATUS.ATCA_SUCCESS
        else v.status
      ⟨st, some (decide (v.status = ATCA_STATUS.ATCA_SUCCESS)), v.trace⟩
  | _, _, _ => ⟨.ATCA_BAD_PARAM, none, []⟩

/-- Embedding of `calib_verify_invalidate` (calib_verify.c lines 535-553):
delegate to `calib_verify` with the Invalidate mode constant, treating a
command-level verify mismatch as success with `is_verified = false`. -/
def calib_verify_invalidate (env : CalibEnv) (device : Option ATCADeviceRec)
    (key_id : Nat) (signature other_data : Option Buf) (ivNull : Bool) :
    WrapOut :=
  match device, signature, other_data with
  | some _dev, some _sig, some _od =>
    if ivNull = true then ⟨.ATCA_BAD_PARAM, none, []⟩
    else
      let v := calib_verify env device VERIFY_MODE_INVALIDATE key_id signature
        none other_data false
      let st :=
        if v.status = ATCA_STATUS.ATCA_CHECKMAC_VERIFY_FAILED then ATCA_STATUS.ATCA_SUCCESS
        else v.status
      ⟨st, some (decide (v.status = ATCA_STATUS.ATCA_SUCCESS)), v.trace⟩
  | _, _, _ => ⟨.ATCA_BAD_PARAM, none, []⟩

/-- Embedding of the static `calib_verify_extern_stored_mac`
(calib_verify.c lines 194-252): load message plus system nonce into the
message digest buffer, compute the expected MAC locally, run `calib_verify`
with the MAC flag requesting a device MAC, and set `is_verified` to the
byte-equality of host and device MACs; a command-level verify mismatch is
success with `is_verified = false`.  When the response carried no MAC the
local `mac` buffer stays uninitialized, modelled by comparing against the
arbitrary bytes `env.junk`.  The device pointer is not null-checked here;
the inner `calib_verify` checks it. -/
def calib_verify_extern_stored_mac (env : CalibEnv)
    (device : Option ATCADeviceRec) (mode key_id : Nat)
    (message signature public_key num_in io_key : Option Buf)
    (ivNull : Bool) : WrapOut :=
  if ivNull = true ∨ signature.isNone = true ∨ message.isNone = true
      ∨ num_in.isNone = true ∨ io_key.isNone = true
      ∨ ((mode &&& VERIFY_MODE_MASK) = VERIFY_MODE_EXTERNAL ∧ public_key.isNone = true) then
    ⟨.ATCA_BAD_PARAM, none, []⟩
  else
    -- *is_verified = false happens here, before any fallible step;
    -- msg_dig_buf = message (32 bytes) followed by num_in (32 bytes)
    match env.nonceLoad NONCE_MODE_TARGET_MSGDIGBUF with
    | .ATCA_SUCCESS =>
      match env.verifyMacStatus with
      | .ATCA_SUCCESS =>
        let vmode := mode ||| VERIFY_MODE_SOURCE_MSGDIGBUF ||| VERIFY_MODE_MAC_FLAG
        let v := calib_verify env device vmode key_id signature public_key none true
        let pre := [CalibEvent.nonceLoad NONCE_MODE_TARGET_MSGDIGBUF 64,
          CalibEvent.hostVerifyMac]
        match v.status with
        | .ATCA_SUCCESS =>
          let devMac := v.macOut.getD env.junk
          let iv := decide (env.verifyHostMac.take MAC_SIZE = devMac.take MAC_SIZE)
          ⟨.ATCA_SUCCESS, some iv, pre ++ v.trace⟩
        | .ATCA_CHECKMAC_VERIFY_FAILED =>
          ⟨.ATCA_SUCCESS, some false, pre ++ v.trace⟩
        | s => ⟨s, some false, pre ++ v.trace⟩
      | s => ⟨s, some false, [CalibEvent.nonceLoad NONCE_MODE_TARGET_MSGDIGBUF 64,
          CalibEvent.hostVerifyMac]⟩
    | s => ⟨s, some false, [CalibEvent.nonceLoad NONCE_MODE_TARGET_MSGDIGBUF 64]⟩

/-- Embedding of `calib_secureboot_mac` (calib_secureboot.c lines 140-244):
issue the Nonce command and combine nonces into TempKey, encrypt the digest
with the key hashed from the IO key and TempKey, prepare the MAC parameters
(mode with the encrypted/MAC flag, placeholder configuration field), run
`calib_secureboot` over the encrypted digest requesting a device MAC, read
the 2-byte SecureBootConfig field, then compute the expected MAC once and
set `is_verified` to the byte-equality of host and device MACs; a
command-level verify mismatch is success with `is_verified = false`.  When
the response carried no MAC the local `mac` buffer stays uninitialized,
modelled by comparing against the arbitrary bytes `env.junk`. -/
def calib_secureboot_mac (env : CalibEnv) (device : Option ATCADeviceRec)
    (mode : Nat) (digest signature num_in io_key : Option Buf)
    (ivNull : Bool) : WrapOut :=
  if ivNull = true ∨ digest.isNone = true ∨ num_in.isNone = true
      ∨ io_key.isNone = true then
    ⟨.ATCA_BAD_PARAM, none, []⟩
  else
    -- *is_verified = false happens here, before any fallible step
    match env.nonceBase with
    | .ATCA_SUCCESS =>
      match env.hostNonceStatus with
      | .ATCA_SUCCESS =>
        match env.sbootEncStatus with
        | .ATCA_SUCCESS =>
          -- MAC parameters are prepared here (mode with the enc/mac flag,
          -- param2 = 0, zeroed placeholder secure_boot_config); no MAC is
          -- computed at this point in the source
          let sbmode := mode ||| SECUREBOOT_MODE_ENC_MAC_FLAG
          let sb := calib_secureboot env device sbmode 0
            (some env.sbootDigestEnc) signature true
          let pre := [CalibEvent.nonceBase NONCE_MODE_SEED_UPDATE 0,
            CalibEvent.hostNonce, CalibEvent.sbootEnc]
          match sb.status with
          | .ATCA_SUCCESS =>
            match env.readZoneStatus with
            | .ATCA_SUCCESS =>
              let cfg := env.readZoneBuf 0 ||| (env.readZoneBuf 1 <<< 8)
              match env.sbootMacStatus cfg with
              | .ATCA_SUCCESS =>
                let devMac := sb.macOut.getD env.junk
                let hostMac := env.sbootHostMac cfg
                let iv := decide (hostMac.take SECUREBOOT_MAC_SIZE = devMac.take SECUREBOOT_MAC_SIZE)
                ⟨.ATCA_SUCCESS, some iv,
                  pre ++ sb.trace ++
                    [CalibEvent.readZone ATCA_ZONE_CONFIG 0 SECUREBOOTCONFIG_OFFSET 2,
                      CalibEvent.hostSbootMac]⟩
              | s => ⟨s, some false,
                  pre ++ sb.trace ++
                    [CalibEvent.readZone ATCA_ZONE_CONFIG 0 SECUREBOOTCONFIG_OFFSET 2,
                      CalibEvent.hostSbootMac]⟩
            | s => ⟨s, some false,
                pre ++ sb.trace ++
                  [CalibEvent.readZone ATCA_ZONE_CONFIG 0 SECUREBOOTCONFIG_OFFSET 2]⟩
          | .ATCA_CHECKMAC_VERIFY_FAILED => ⟨.ATCA_SUCCESS, some false, pre ++ sb.trace⟩
          | s => ⟨s, some false, pre ++ sb.trace⟩
        | s => ⟨s, some false, [CalibEvent.nonceBase NONCE_MODE_SEED_UPDATE 0,
            CalibEvent.hostNonce, CalibEvent.sbootEnc]⟩
      | s => ⟨s, some false, [CalibEvent.nonceBase NONCE_MODE_SEED_UPDATE 0,
          CalibEvent.hostNonce]⟩
    | s => ⟨s, some false, [CalibEvent.nonceBase NONCE_MODE_SEED_UPDATE 0]⟩

/-- Concrete device context with the ATECC608 variant tag. -/
def dev608 : ATCADeviceRec := ⟨.ATECC608⟩

/-- Concrete device context with a non-ATECC608 variant tag. -/
def dev508 : ATCADeviceRec := ⟨.ATECC508A⟩

/-- Concrete 64-byte signature contents. -/
def sigBuf : Buf := fun i => (3 * i + 1) % 256

/-- Concrete 64-byte public key contents. -/
def pkBuf : Buf := fun i => (5 * i + 2) % 256

/-- Concrete 19-byte other-data contents. -/
def odBuf : Buf := fun i => (7 * i + 3) % 256

/-- Concrete 32-byte digest contents. -/
def digBuf : Buf := fun i => (11 * i + 4) % 256

/-- Concrete 32-byte message contents. -/
def msgBuf : Buf := fun i => (13 * i + 5) % 256

/-- Concrete host nonce contents. -/
def numBuf : Buf := fun i => (17 * i + 6) % 256

/-- Concrete IO-protection key contents. -/
def ioBuf : Buf := fun i => (19 * i + 7) % 256

/-- Concrete device response: count byte 35 (a MAC-bearing response), then
payload bytes 101, 102, ... -/
def respOk : Buf := fun i => if i = 0 then 35 else 100 + i

/-- Environment in which every collaborator succeeds, the response carries a
MAC, and the host-computed MACs equal the device-returned MAC bytes. -/
def envOk : CalibEnv where
  CA_MAX_PACKET_SIZE := 1024
  allocOk := true
  atVerifyStatus := fun _ _ _ => .ATCA_SUCCESS
  atSecureBootStatus := fun _ _ _ => .ATCA_SUCCESS
  execute := fun _ => (.ATCA_SUCCESS, respOk)
  nonceLoad := fun _ => .ATCA_SUCCESS
  nonceBase := .ATCA_SUCCESS
  hostNonceStatus := .ATCA_SUCCESS
  sbootEncStatus := .ATCA_SUCCESS
  sbootDigestEnc := fun i => (50 + i) % 256
  verifyMacStatus := .ATCA_SUCCESS
  verifyHostMac := (List.range 32).map (fun i => respOk (1 + i))
  readZoneStatus := .ATCA_SUCCESS
  readZoneBuf := fun i => if i = 0 then 3 else 1
  sbootMacStatus := fun _ => .ATCA_SUCCESS
  sbootHostMac := fun _ => (List.range 32).map (fun i => respOk (1 + i))
  junk := List.replicate 32 9

/-- Like `envOk` but the executor reports the verification-mismatch status. -/
def envMismatch : CalibEnv :=
  { envOk with execute := fun _ => (.ATCA_CHECKMAC_VERIFY_FAILED, respOk) }

/-- Like `envOk` but the executor reports an opaque transport fault. -/
def envFail : CalibEnv :=
  { envOk with execute := fun _ => (.otherError 9, zeroBuf) }

/-- Like `envOk` but the configured transport capacity (100 bytes) is below
the External-verify requirement (7 + 64 + 64 = 135) and the
SecureBoot-with-signature requirement (7 + 32 + 64 = 103); the executor
reports an opaque status so that a pre-transport rejection would be
distinguishable. -/
def envSmall : CalibEnv :=
  { envOk with CA_MAX_PACKET_SIZE := 100, execute := fun _ => (.otherError 7, respOk) }


/-- Helper: recognizes executor-invocation events. -/
def isExecCmd : CalibEvent → Bool
  | .execCmd _ _ => true
  | _ => false

/-- C1: the claim states that when the compile-time maximum packet capacity
is insufficient for the requested mode (External verify, or SecureBoot with
a supplied signature), the function returns InvalidSize and
`atca_execute_command` is never invoked.  The source does assign
`ATCA_INVALID_SIZE` in exactly those situations, but — unlike every other
rejection in these functions — omits the `break`, so control falls through,
the packet is built, the executor IS invoked, and the assignment is
overwritten by the later status assignments.  This theorem exhibits the
divergence: under a capacity of 100 bytes (below both requirements), both
functions return the executor's opaque status `otherError 7` (not
InvalidSize) and their traces contain the executor invocation. -/
theorem C1_capacity_rejection_dead_store :
    envSmall.CA_MAX_PACKET_SIZE < ATCA_CMD_SIZE_MIN + ATCA_SIG_SIZE + ATCA_PUB_KEY_SIZE
    ∧ (calib_verify envSmall (some dev608) VERIFY_MODE_EXTERNAL 4
        (some sigBuf) (some pkBuf) none false).status = .otherError 7
    ∧ (calib_verify envSmall (some dev608) VERIFY_MODE_EXTERNAL 4
        (some sigBuf) (some pkBuf) none false).trace
        = [CalibEvent.execCmd VERIFY_MODE_EXTERNAL 4]
    ∧ envSmall.CA_MAX_PACKET_SIZE
        < ATCA_CMD_SIZE_MIN + SECUREBOOT_DIGEST_SIZE + SECUREBOOT_SIGNATURE_SIZE
    ∧ (calib_secureboot envSmall (some dev608) SECUREBOOT_MODE_FULL 0
        (some digBuf) (some sigBuf) false).status = .otherError 7
    ∧ (calib_secureboot envSmall (some dev608) SECUREBOOT_MODE_FULL 0
        (some digBuf) (some sigBuf) false).trace
        = [CalibEvent.execCmd SECUREBOOT_MODE_FULL 0] := by
  decide

/-- C9 (counterexample): the claim states that `calib_secureboot` with an
absent signature and a mode other than FullStore is rejected with
BadParameter or InvalidSize before the executor is invoked.  The source
performs no mode/signature consistency check at all: here, with mode Full
(≠ FullStore) and no signature, the executor is invoked and the call returns
the executor's success status. -/
theorem C9_counterexample_no_mode_signature_check :
    SECUREBOOT_MODE_FULL ≠ SECUREBOOT_MODE_FULLSTORE
    ∧ (calib_secureboot envOk (some dev608) SECUREBOOT_MODE_FULL 0
        (some digBuf) none false).status = .ATCA_SUCCESS
    ∧ (calib_secureboot envOk (some dev608) SECUREBOOT_MODE_FULL 0
        (some digBuf) none false).trace
        = [CalibEvent.execCmd SECUREBOOT_MODE_FULL 0] := by
  decide

/-- C9 (amended): `calib_secureboot` applies no mode/signature consistency
check: for every mode, an absent signature is accepted, a digest-only packet
is built, and — when allocation and the frame builder succeed — the executor
is invoked and its status is returned. -/
theorem C9_amended_absent_signature_always_accepted (env : CalibEnv)
    (dev : ATCADeviceRec) (mode param2 : Nat) (dig : Buf)
    (halloc : env.allocOk = true)
    (hat : env.atSecureBootStatus dev.devtype mode param2 = .ATCA_SUCCESS) :
    (calib_secureboot env (some dev) mode param2 (some dig) none false).trace
      = [CalibEvent.execCmd mode param2]
    ∧ (calib_secureboot env (some dev) mode param2 (some dig) none false).status
      = (env.execute (calib_secureboot_build mode param2 dig none)).1 := by
  unfold calib_secureboot
  simp only [halloc, calib_secureboot_build]
  rw [hat]
  rcases hres : (env.execute ⟨mode, param2, memcpyBuf zeroBuf 0 dig SECUREBOOT_DIGEST_SIZE⟩).1 <;>
    simp [hres]

/-- C9 (amended, witness): the amended statement evaluated at a concrete
Full-mode call with no signature. -/
theorem C9_amended_witness :
    (calib_secureboot envOk (some dev608) SECUREBOOT_MODE_FULL 0
        (some digBuf) none false).trace
      = [CalibEvent.execCmd SECUREBOOT_MODE_FULL 0]
    ∧ (calib_secureboot envOk (some dev608) SECUREBOOT_MODE_FULL 0
        (some digBuf) none false).status
      = (envOk.execute (calib_secureboot_build SECUREBOOT_MODE_FULL 0 digBuf none)).1 :=
  C9_amended_absent_signature_always_accepted envOk dev608 SECUREBOOT_MODE_FULL 0 digBuf
    rfl rfl

/-- C6 (counterexample): the claim states that `calib_secureboot_mac`
computes the expected MAC before the SecureBoot command (step 3, with a
placeholder configuration field) and recomputes it after reading the
configuration field (step 6).  The source only *prepares* the MAC parameter
block before the command; `atcah_secureboot_mac` is invoked exactly once,
after the configuration read.  On a fully successful concrete run, no MAC
computation precedes the executor invocation and exactly one occurs in
total, refuting the compute-then-recompute sequence. -/
theorem C6_counterexample_single_mac_computation :
    ((calib_secureboot_mac envOk (some dev608) SECUREBOOT_MODE_FULL (some digBuf)
        (some sigBuf) (some numBuf) (some ioBuf) false).trace.takeWhile
        (fun e => !(isExecCmd e))).count CalibEvent.hostSbootMac = 0
    ∧ (calib_secureboot_mac envOk (some dev608) SECUREBOOT_MODE_FULL (some digBuf)
        (some sigBuf) (some numBuf) (some ioBuf) false).trace.count
        CalibEvent.hostSbootMac = 1
    ∧ (calib_secureboot_mac envOk (some dev608) SECUREBOOT_MODE_FULL (some digBuf)
        (some sigBuf) (some numBuf) (some ioBuf) false).status = .ATCA_SUCCESS := by
  decide

/-- C6 (amended): on a fully successful run, `calib_secureboot_mac` executes
in this fixed order: (1) generate the nonce/TempKey from num_in, (2) encrypt
the digest with the key hashed from io_key and TempKey, (3) prepare the MAC
parameters with the encryption flag set and the not-yet-read configuration
field as a zeroed placeholder (no MAC is computed yet), (4) run the
SecureBoot command with mode|enc-mac-flag over the encrypted digest, (5)
read the 2-byte SecureBootConfig field from the configuration zone after the
command, (6) compute the expected MAC once, with the now-known configuration
field, and set *is_verified to the byte-equality of the host-computed and
device-returned MACs. -/
theorem C6_amended_step_order (env : CalibEnv) (dev : ATCADeviceRec)
    (mode : Nat) (dig : Buf) (signature : Option Buf) (num io : Buf)
    (h1 : env.nonceBase = .ATCA_SUCCESS)
    (h2 : env.hostNonceStatus = .ATCA_SUCCESS)
    (h3 : env.sbootEncStatus = .ATCA_SUCCESS)
    (halloc : env.allocOk = true)
    (hat : env.atSecureBootStatus dev.devtype (mode ||| SECUREBOOT_MODE_ENC_MAC_FLAG) 0
      = .ATCA_SUCCESS)
    (hexec : (env.execute (calib_secureboot_build (mode ||| SECUREBOOT_MODE_ENC_MAC_FLAG) 0
      env.sbootDigestEnc signature)).1 = .ATCA_SUCCESS)
    (hread : env.readZoneStatus = .ATCA_SUCCESS)
    (hmac : env.sbootMacStatus (env.readZoneBuf 0 ||| (env.readZoneBuf 1 <<< 8))
      = .ATCA_SUCCESS) :
    (calib_secureboot_mac env (some dev) mode (some dig) signature (some num)
        (some io) false).trace
      = [CalibEvent.nonceBase NONCE_MODE_SEED_UPDATE 0, CalibEvent.hostNonce,
        CalibEvent.sbootEnc,
        CalibEvent.execCmd (mode ||| SECUREBOOT_MODE_ENC_MAC_FLAG) 0,
        CalibEvent.readZone ATCA_ZONE_CONFIG 0 SECUREBOOTCONFIG_OFFSET 2,
        CalibEvent.hostSbootMac]
    ∧ (calib_secureboot_mac env (some dev) mode (some dig) signature (some num)
        (some io) false).status = .ATCA_SUCCESS
    ∧ (calib_secureboot_mac env (some dev) mode (some dig) signature (some num)
        (some io) false).isVerified
      = some (decide
          ((env.sbootHostMac (env.readZoneBuf 0 ||| (env.readZoneBuf 1 <<< 8))).take
              SECUREBOOT_MAC_SIZE
            = ((if SECUREBOOT_RSP_SIZE_MAC ≤
                  (env.execute (calib_secureboot_build
                    (mode ||| SECUREBOOT_MODE_ENC_MAC_FLAG) 0 env.sbootDigestEnc
                    signature)).2 ATCA_COUNT_IDX
                then (List.range SECUREBOOT_MAC_SIZE).map
                  (fun i => (env.execute (calib_secureboot_build
                    (mode ||| SECUREBOOT_MODE_ENC_MAC_FLAG) 0 env.sbootDigestEnc
                    signature)).2 (ATCA_RSP_DATA_IDX + i))
                else env.junk).take SECUREBOOT_MAC_SIZE))) := by
  unfold calib_secureboot_mac calib_secureboot
  simp only [calib_secureboot_build] at hexec ⊢
  simp [h1, h2, h3, halloc, hat, hexec, hread, hmac]
  have hgd : ∀ (c : Prop) (inst : Decidable c) (L jk : List Nat),
      (if c then some L else none).getD jk = if c then L else jk := by
    intro c inst L jk
    split <;> simp
  rw [hgd]

/-- C6 (amended, witness): the amended step order evaluated on a fully
successful concrete run, where the host and device MACs agree. -/
theorem C6_amended_witness :
    (calib_secureboot_mac envOk (some dev608) SECUREBOOT_MODE_FULL (some digBuf)
        (some sigBuf) (some numBuf) (some ioBuf) false).trace
      = [CalibEvent.nonceBase NONCE_MODE_SEED_UPDATE 0, CalibEvent.hostNonce,
        CalibEvent.sbootEnc,
        CalibEvent.execCmd (SECUREBOOT_MODE_FULL ||| SECUREBOOT_MODE_ENC_MAC_FLAG) 0,
        CalibEvent.readZone ATCA_ZONE_CONFIG 0 SECUREBOOTCONFIG_OFFSET 2,
        CalibEvent.hostSbootMac]
    ∧ (calib_secureboot_mac envOk (some dev608) SECUREBOOT_MODE_FULL (some digBuf)
        (some sigBuf) (some numBuf) (some ioBuf) false).status = .ATCA_SUCCESS
    ∧ (calib_secureboot_mac envOk (some dev608) SECUREBOOT_MODE_FULL (some digBuf)
        (some sigBuf) (some numBuf) (some ioBuf) false).isVerified = some true := by
  have h := C6_amended_step_order envOk dev608 SECUREBOOT_MODE_FULL digBuf
    (some sigBuf) numBuf ioBuf rfl rfl rfl rfl rfl rfl rfl rfl
  exact ⟨h.1, h.2.1, h.2.2.trans (by decide)⟩

/-- C3: the mode determines which extra input is mandatory for
`calib_verify`.  When the masked mode is External and the public key is
absent, or the masked mode is Validate or Invalidate and the other data is
absent, the function returns BadParameter with no packet built and no
executor invocation (empty trace, nothing sent); in Stored mode neither
extra input is required and the call proceeds all the way to the executor. -/
theorem C3_mode_mandatory_inputs :
    (∀ env device mode key_id signature other_data macWanted,
      mode &&& VERIFY_MODE_MASK = VERIFY_MODE_EXTERNAL →
      calib_verify env device mode key_id signature none other_data macWanted
        = ⟨.ATCA_BAD_PARAM, none, none, []⟩)
    ∧ (∀ env device mode key_id signature public_key macWanted,
      (mode &&& VERIFY_MODE_MASK = VERIFY_MODE_VALIDATE
        ∨ mode &&& VERIFY_MODE_MASK = VERIFY_MODE_INVALIDATE) →
      calib_verify env device mode key_id signature public_key none macWanted
        = ⟨.ATCA_BAD_PARAM, none, none, []⟩)
    ∧ (∀ env dev mode key_id sig macWanted,
      mode &&& VERIFY_MODE_MASK = VERIFY_MODE_STORED →
      env.allocOk = true →
      env.atVerifyStatus dev.devtype mode key_id = .ATCA_SUCCESS →
      (calib_verify env (some dev) mode key_id (some sig) none none macWanted).trace
        = [CalibEvent.execCmd mode key_id]) := by
  refine ⟨?_, ?_, ?_⟩
  · intro env device mode key_id signature other_data macWanted h
    unfold calib_verify
    rcases device with _ | dev <;> rcases signature with _ | sig <;>
      simp [h]
  · intro env device mode key_id signature public_key macWanted h
    unfold calib_verify
    rcases device with _ | dev <;> rcases signature with _ | sig <;>
      rcases h with h | h <;>
      simp [h, VERIFY_MODE_VALIDATE, VERIFY_MODE_INVALIDATE, VERIFY_MODE_EXTERNAL]
  · intro env dev mode key_id sig macWanted h halloc hat
    unfold calib_verify
    simp only [calib_verify_build] at hat ⊢
    simp [h, halloc, hat, VERIFY_MODE_STORED, VERIFY_MODE_VALIDATE,
      VERIFY_MODE_INVALIDATE, VERIFY_MODE_EXTERNAL]
    split <;> simp

/-- C3 (witness): the three parts evaluated at concrete inputs: External
with no public key, Validate with no other data, Stored with neither. -/
theorem C3_witness :
    calib_verify envOk (some dev608) VERIFY_MODE_EXTERNAL 4 (some sigBuf) none none false
      = ⟨.ATCA_BAD_PARAM, none, none, []⟩
    ∧ calib_verify envOk (some dev608) VERIFY_MODE_VALIDATE 2 (some sigBuf) none none false
      = ⟨.ATCA_BAD_PARAM, none, none, []⟩
    ∧ (calib_verify envOk (some dev608) VERIFY_MODE_STORED 2 (some sigBuf) none none false).trace
      = [CalibEvent.execCmd VERIFY_MODE_STORED 2] :=
  ⟨C3_mode_mandatory_inputs.1 envOk (some dev608) VERIFY_MODE_EXTERNAL 4
      (some sigBuf) none false (by decide),
    C3_mode_mandatory_inputs.2.1 envOk (some dev608) VERIFY_MODE_VALIDATE 2
      (some sigBuf) none false (Or.inl (by decide)),
    C3_mode_mandatory_inputs.2.2 envOk dev608 VERIFY_MODE_STORED 2 sigBuf false
      (by decide) rfl rfl⟩

/-- Reading inside the region written by `memcpyBuf` returns the source. -/
lemma memcpyBuf_inside (dst src : Buf) (off len i : Nat) (h1 : off ≤ i)
    (h2 : i < off + len) : memcpyBuf dst off src len i = src (i - off) := by
  unfold memcpyBuf
  rw [if_pos ⟨h1, h2⟩]

/-- Reading outside the region written by `memcpyBuf` returns the
destination. -/
lemma memcpyBuf_outside (dst src : Buf) (off len i : Nat)
    (h : i < off ∨ off + len ≤ i) : memcpyBuf dst off src len i = dst i := by
  unfold memcpyBuf
  rw [if_neg]
  omega

/-- Helper: the first 64 data bytes of a verify packet are the signature,
in every mode. -/
lemma calib_verify_build_data_sig (mode key_id : Nat) (sig : Buf)
    (pk od : Option Buf) (i : Nat) (hi : i < ATCA_SIG_SIZE) :
    (calib_verify_build mode key_id sig pk od).data i = sig i := by
  unfold calib_verify_build
  rcases pk with _ | pkb <;> rcases od with _ | odb <;>
    simp [memcpyBuf, ite_apply, zeroBuf, ATCA_SIG_SIZE, ATCA_PUB_KEY_SIZE,
      VERIFY_OTHER_DATA_SIZE, VERIFY_MODE_MASK, VERIFY_MODE_STORED,
      VERIFY_MODE_EXTERNAL, VERIFY_MODE_VALIDATE, VERIFY_MODE_INVALIDATE] at hi ⊢ <;>
    (try split_ifs) <;>
    intros <;>
    first
      | rfl
      | (exfalso; omega)
      | (congr 1 <;> omega)

/-- Helper: in External mode the 64 bytes after the signature are the
public key. -/
lemma calib_verify_build_data_pk (mode key_id : Nat) (sig pkb : Buf)
    (od : Option Buf) (i : Nat)
    (hmode : mode &&& VERIFY_MODE_MASK = VERIFY_MODE_EXTERNAL)
    (hi : i < ATCA_PUB_KEY_SIZE) :
    (calib_verify_build mode key_id sig (some pkb) od).data (ATCA_SIG_SIZE + i)
      = pkb i := by
  unfold calib_verify_build
  rcases od with _ | odb <;>
    simp only [hmode] <;>
    simp [memcpyBuf, ite_apply, zeroBuf, ATCA_SIG_SIZE, ATCA_PUB_KEY_SIZE,
      VERIFY_OTHER_DATA_SIZE, VERIFY_MODE_MASK, VERIFY_MODE_STORED,
      VERIFY_MODE_EXTERNAL, VERIFY_MODE_VALIDATE, VERIFY_MODE_INVALIDATE] at hi ⊢ <;>
    (try split_ifs) <;>
    intros <;>
    first
      | rfl
      | (exfalso; omega)
      | (congr 1 <;> omega)

/-- Helper: in External mode every data byte past signature plus public key
is zero. -/
lemma calib_verify_build_data_zero_after_pk (mode key_id : Nat) (sig : Buf)
    (pk od : Option Buf) (i : Nat)
    (hmode : mode &&& VERIFY_MODE_MASK = VERIFY_MODE_EXTERNAL)
    (hi : ATCA_SIG_SIZE + ATCA_PUB_KEY_SIZE ≤ i) :
    (calib_verify_build mode key_id sig pk od).data i = 0 := by
  unfold calib_verify_build
  rcases pk with _ | pkb <;> rcases od with _ | odb <;>
    simp only [hmode] <;>
    simp [memcpyBuf, ite_apply, zeroBuf, ATCA_SIG_SIZE, ATCA_PUB_KEY_SIZE,
      VERIFY_OTHER_DATA_SIZE, VERIFY_MODE_MASK, VERIFY_MODE_STORED,
      VERIFY_MODE_EXTERNAL, VERIFY_MODE_VALIDATE, VERIFY_MODE_INVALIDATE] at hi ⊢ <;>
    (try split_ifs) <;>
    intros <;>
    first
      | rfl
      | (exfalso; omega)
      | (congr 1 <;> omega)

/-- Helper: in Validate or Invalidate mode the 19 bytes after the signature
are the other data. -/
lemma calib_verify_build_data_od (mode key_id : Nat) (sig odb : Buf)
    (pk : Option Buf) (i : Nat)
    (hmode : mode &&& VERIFY_MODE_MASK = VERIFY_MODE_VALIDATE
      ∨ mode &&& VERIFY_MODE_MASK = VERIFY_MODE_INVALIDATE)
    (hi : i < VERIFY_OTHER_DATA_SIZE) :
    (calib_verify_build mode key_id sig pk (some odb)).data (ATCA_SIG_SIZE + i)
      = odb i := by
  unfold calib_verify_build
  rcases hmode with hmode | hmode <;> rcases pk with _ | pkb <;>
    simp only [hmode] <;>
    simp [memcpyBuf, ite_apply, zeroBuf, ATCA_SIG_SIZE, ATCA_PUB_KEY_SIZE,
      VERIFY_OTHER_DATA_SIZE, VERIFY_MODE_MASK, VERIFY_MODE_STORED,
      VERIFY_MODE_EXTERNAL, VERIFY_MODE_VALIDATE, VERIFY_MODE_INVALIDATE] at hi ⊢ <;>
    (try split_ifs) <;>
    intros <;>
    first
      | rfl
      | (exfalso; omega)
      | (congr 1 <;> omega)

/-- Helper: in Validate or Invalidate mode every data byte past signature
plus other data is zero. -/
lemma calib_verify_build_data_zero_after_od (mode key_id : Nat) (sig : Buf)
    (pk od : Option Buf) (i : Nat)
    (hmode : mode &&& VERIFY_MODE_MASK = VERIFY_MODE_VALIDATE
      ∨ mode &&& VERIFY_MODE_MASK = VERIFY_MODE_INVALIDATE)
    (hi : ATCA_SIG_SIZE + VERIFY_OTHER_DATA_SIZE ≤ i) :
    (calib_verify_build mode key_id sig pk od).data i = 0 := by
  unfold calib_verify_build
  rcases hmode with hmode | hmode <;> rcases pk with _ | pkb <;>
    rcases od with _ | odb <;>
    simp only [hmode] <;>
    simp [memcpyBuf, ite_apply, zeroBuf, ATCA_SIG_SIZE, ATCA_PUB_KEY_SIZE,
      VERIFY_OTHER_DATA_SIZE, VERIFY_MODE_MASK, VERIFY_MODE_STORED,
      VERIFY_MODE_EXTERNAL, VERIFY_MODE_VALIDATE, VERIFY_MODE_INVALIDATE] at hi ⊢ <;>
    (try split_ifs) <;>
    intros <;>
    first
      | rfl
      | (exfalso; omega)
      | (congr 1 <;> omega)

/-- Helper: in Stored mode every data byte past the signature is zero. -/
lemma calib_verify_build_data_zero_stored (mode key_id : Nat) (sig : Buf)
    (pk od : Option Buf) (i : Nat)
    (hmode : mode &&& VERIFY_MODE_MASK = VERIFY_MODE_STORED)
    (hi : ATCA_SIG_SIZE ≤ i) :
    (calib_verify_build mode key_id sig pk od).data i = 0 := by
  unfold calib_verify_build
  rcases pk with _ | pkb <;> rcases od with _ | odb <;>
    simp only [hmode] <;>
    simp [memcpyBuf, ite_apply, zeroBuf, ATCA_SIG_SIZE, ATCA_PUB_KEY_SIZE,
      VERIFY_OTHER_DATA_SIZE, VERIFY_MODE_MASK, VERIFY_MODE_STORED,
      VERIFY_MODE_EXTERNAL, VERIFY_MODE_VALIDATE, VERIFY_MODE_INVALIDATE] at hi ⊢ <;>
    (try split_ifs) <;>
    intros <;>
    first
      | rfl
      | (exfalso; omega)
      | (congr 1 <;> omega)

/-- Helper: whenever `calib_verify` hands a packet to the executor, that
packet is exactly the one `calib_verify_build` constructs from the call
arguments. -/
lemma calib_verify_sent_eq (env : CalibEnv) (device : Option ATCADeviceRec)
    (mode key_id : Nat) (signature public_key other_data : Option Buf)
    (macWanted : Bool) (p : ATCAPacket)
    (hsent : (calib_verify env device mode key_id signature public_key
      other_data macWanted).sent = some p) :
    ∃ sig, signature = some sig
      ∧ p = calib_verify_build mode key_id sig public_key other_data := by
  rcases device with _ | dev
  · simp [calib_verify] at hsent
  · rcases signature with _ | sig
    · simp [calib_verify] at hsent
    · refine ⟨sig, rfl, ?_⟩
      unfold calib_verify at hsent
      simp only [apply_ite CmdOut.sent] at hsent
      repeat' split at hsent
      all_goals simp_all

/-- C4: for every packet `calib_verify` successfully builds and hands to the
executor, `param1` is the mode byte, `param2` is the key identifier, the
payload is the 64-byte signature first, followed (starting at offset 64) by
the 64-byte public key when the masked mode is External, or by the 19-byte
other data when the masked mode is Validate or Invalidate, and nothing else:
every data byte beyond the mode's payload is zero (in Stored mode,
everything beyond the signature). -/
theorem C4_verify_packet_payload (env : CalibEnv) (device : Option ATCADeviceRec)
    (mode key_id : Nat) (signature public_key other_data : Option Buf)
    (macWanted : Bool) (p : ATCAPacket)
    (hsent : (calib_verify env device mode key_id signature public_key
      other_data macWanted).sent = some p) :
    p.param1 = mode ∧ p.param2 = key_id
    ∧ (∀ sig, signature = some sig →
        ∀ i, i < ATCA_SIG_SIZE → p.data i = sig i)
    ∧ (mode &&& VERIFY_MODE_MASK = VERIFY_MODE_EXTERNAL →
        ∀ pkb, public_key = some pkb →
          (∀ i, i < ATCA_PUB_KEY_SIZE → p.data (ATCA_SIG_SIZE + i) = pkb i)
          ∧ (∀ i, ATCA_SIG_SIZE + ATCA_PUB_KEY_SIZE ≤ i → p.data i = 0))
    ∧ ((mode &&& VERIFY_MODE_MASK = VERIFY_MODE_VALIDATE
          ∨ mode &&& VERIFY_MODE_MASK = VERIFY_MODE_INVALIDATE) →
        ∀ odb, other_data = some odb →
          (∀ i, i < VERIFY_OTHER_DATA_SIZE → p.data (ATCA_SIG_SIZE + i) = odb i)
          ∧ (∀ i, ATCA_SIG_SIZE + VERIFY_OTHER_DATA_SIZE ≤ i → p.data i = 0))
    ∧ (mode &&& VERIFY_MODE_MASK = VERIFY_MODE_STORED →
        ∀ i, ATCA_SIG_SIZE ≤ i → p.data i = 0) := by
  obtain ⟨sig, hsig, hp⟩ := calib_verify_sent_eq env device mode key_id
    signature public_key other_data macWanted p hsent
  subst hp
  refine ⟨rfl, rfl, ?_, ?_, ?_, ?_⟩
  · intro sig2 hs2 i hi
    rw [hsig] at hs2
    obtain rfl : sig = sig2 := Option.some.inj hs2
    exact calib_verify_build_data_sig mode key_id sig public_key other_data i hi
  · intro hm pkb hpk
    subst hpk
    exact ⟨fun i hi => calib_verify_build_data_pk mode key_id sig pkb other_data i hm hi,
      fun i hi => calib_verify_build_data_zero_after_pk mode key_id sig
        (some pkb) other_data i hm hi⟩
  · intro hm odb hod
    subst hod
    exact ⟨fun i hi => calib_verify_build_data_od mode key_id sig odb public_key i hm hi,
      fun i hi => calib_verify_build_data_zero_after_od mode key_id sig
        public_key (some odb) i hm hi⟩
  · intro hm i hi
    exact calib_verify_build_data_zero_stored mode key_id sig public_key
      other_data i hm hi

/-- C4 (witness): the payload layout evaluated on a concrete External-mode
packet: signature byte, public-key byte, and a zero byte past the payload. -/
theorem C4_witness :
    (calib_verify envOk (some dev608) VERIFY_MODE_EXTERNAL 4 (some sigBuf)
        (some pkBuf) none false).sent
      = some (calib_verify_build VERIFY_MODE_EXTERNAL 4 sigBuf (some pkBuf) none)
    ∧ (calib_verify_build VERIFY_MODE_EXTERNAL 4 sigBuf (some pkBuf) none).param1
      = VERIFY_MODE_EXTERNAL
    ∧ (calib_verify_build VERIFY_MODE_EXTERNAL 4 sigBuf (some pkBuf) none).data 10
      = sigBuf 10
    ∧ (calib_verify_build VERIFY_MODE_EXTERNAL 4 sigBuf (some pkBuf) none).data
        (ATCA_SIG_SIZE + 10) = pkBuf 10
    ∧ (calib_verify_build VERIFY_MODE_EXTERNAL 4 sigBuf (some pkBuf) none).data 200
      = 0 := by
  have hs : (calib_verify envOk (some dev608) VERIFY_MODE_EXTERNAL 4 (some sigBuf)
      (some pkBuf) none false).sent
      = some (calib_verify_build VERIFY_MODE_EXTERNAL 4 sigBuf (some pkBuf) none) := rfl
  have h := C4_verify_packet_payload envOk (some dev608) VERIFY_MODE_EXTERNAL 4
    (some sigBuf) (some pkBuf) none false
    (calib_verify_build VERIFY_MODE_EXTERNAL 4 sigBuf (some pkBuf) none) hs
  exact ⟨hs, h.1, h.2.2.1 sigBuf rfl 10 (by decide),
    (h.2.2.2.1 (by decide) pkBuf rfl).1 10 (by decide),
    (h.2.2.2.1 (by decide) pkBuf rfl).2 200 (by decide)⟩

/-- Helper: the first 32 data bytes of a SecureBoot packet are the digest. -/
lemma calib_secureboot_build_data_digest (mode param2 : Nat) (dig : Buf)
    (signature : Option Buf) (i : Nat) (hi : i < SECUREBOOT_DIGEST_SIZE) :
    (calib_secureboot_build mode param2 dig signature).data i = dig i := by
  unfold calib_secureboot_build
  rcases signature with _ | s <;>
    simp [memcpyBuf, ite_apply, zeroBuf, SECUREBOOT_DIGEST_SIZE,
      SECUREBOOT_SIGNATURE_SIZE] at hi ⊢ <;>
    (try split_ifs) <;>
    intros <;>
    first
      | rfl
      | (exfalso; omega)
      | (congr 1 <;> omega)

/-- Helper: with a signature present, the 64 data bytes after the digest are
the signature. -/
lemma calib_secureboot_build_data_sig (mode param2 : Nat) (dig s : Buf)
    (i : Nat) (hi : i < SECUREBOOT_SIGNATURE_SIZE) :
    (calib_secureboot_build mode param2 dig (some s)).data
      (SECUREBOOT_DIGEST_SIZE + i) = s i := by
  unfold calib_secureboot_build
  simp [memcpyBuf, ite_apply, zeroBuf, SECUREBOOT_DIGEST_SIZE,
    SECUREBOOT_SIGNATURE_SIZE] at hi ⊢ <;>
    (try split_ifs) <;>
    intros <;>
    first
      | rfl
      | (exfalso; omega)
      | (congr 1 <;> omega)

/-- Helper: with a signature present, every data byte past digest plus
signature (96 bytes) is zero. -/
lemma calib_secureboot_build_data_zero_with_sig (mode param2 : Nat)
    (dig s : Buf) (i : Nat)
    (hi : SECUREBOOT_DIGEST_SIZE + SECUREBOOT_SIGNATURE_SIZE ≤ i) :
    (calib_secureboot_build mode param2 dig (some s)).data i = 0 := by
  unfold calib_secureboot_build
  simp [memcpyBuf, ite_apply, zeroBuf, SECUREBOOT_DIGEST_SIZE,
    SECUREBOOT_SIGNATURE_SIZE] at hi ⊢ <;>
    (try split_ifs) <;>
    intros <;>
    first
      | rfl
      | (exfalso; omega)
      | (congr 1 <;> omega)

/-- Helper: with no signature, every data byte past the 32-byte digest is
zero. -/
lemma calib_secureboot_build_data_zero_no_sig (mode param2 : Nat)
    (dig : Buf) (i : Nat) (hi : SECUREBOOT_DIGEST_SIZE ≤ i) :
    (calib_secureboot_build mode param2 dig none).data i = 0 := by
  unfold calib_secureboot_build
  simp [memcpyBuf, ite_apply, zeroBuf, SECUREBOOT_DIGEST_SIZE,
    SECUREBOOT_SIGNATURE_SIZE] at hi ⊢ <;>
    (try split_ifs) <;>
    intros <;>
    first
      | rfl
      | (exfalso; omega)
      | (congr 1 <;> omega)

/-- Helper: whenever `calib_secureboot` hands a packet to the executor, that
packet is exactly the one `calib_secureboot_build` constructs from the call
arguments. -/
lemma calib_secureboot_sent_eq (env : CalibEnv) (device : Option ATCADeviceRec)
    (mode param2 : Nat) (digest signature : Option Buf) (macWanted : Bool)
    (p : ATCAPacket)
    (hsent : (calib_secureboot env device mode param2 digest signature
      macWanted).sent = some p) :
    ∃ dig, digest = some dig
      ∧ p = calib_secureboot_build mode param2 dig signature := by
  rcases device with _ | dev
  · simp [calib_secureboot] at hsent
  · rcases digest with _ | dig
    · simp [calib_secureboot] at hsent
    · refine ⟨dig, rfl, ?_⟩
      unfold calib_secureboot at hsent
      simp only [apply_ite CmdOut.sent] at hsent
      repeat' split at hsent
      all_goals simp_all

/-- C5: for every packet `calib_secureboot` successfully builds and hands to
the executor, the first 32 payload bytes equal the caller's digest; when a
signature is supplied the payload is exactly digest followed by the 64-byte
signature (96 bytes), with every byte beyond offset 96 zero; when the
signature is absent the payload is exactly the 32-byte digest, with every
byte beyond offset 32 zero. -/
theorem C5_secureboot_packet_payload (env : CalibEnv)
    (device : Option ATCADeviceRec) (mode param2 : Nat)
    (digest signature : Option Buf) (macWanted : Bool) (p : ATCAPacket)
    (hsent : (calib_secureboot env device mode param2 digest signature
      macWanted).sent = some p) :
    (∀ dig, digest = some dig →
      ∀ i, i < SECUREBOOT_DIGEST_SIZE → p.data i = dig i)
    ∧ (∀ s, signature = some s →
        (∀ i, i < SECUREBOOT_SIGNATURE_SIZE →
          p.data (SECUREBOOT_DIGEST_SIZE + i) = s i)
        ∧ (∀ i, SECUREBOOT_DIGEST_SIZE + SECUREBOOT_SIGNATURE_SIZE ≤ i →
          p.data i = 0))
    ∧ (signature = none →
        ∀ i, SECUREBOOT_DIGEST_SIZE ≤ i → p.data i = 0) := by
  obtain ⟨dig, hdig, hp⟩ := calib_secureboot_sent_eq env device mode param2
    digest signature macWanted p hsent
  subst hp
  refine ⟨?_, ?_, ?_⟩
  · intro dig2 hd2 i hi
    rw [hdig] at hd2
    obtain rfl : dig = dig2 := Option.some.inj hd2
    exact calib_secureboot_build_data_digest mode param2 dig signature i hi
  · intro s hsg
    subst hsg
    exact ⟨fun i hi => calib_secureboot_build_data_sig mode param2 dig s i hi,
      fun i hi => calib_secureboot_build_data_zero_with_sig mode param2 dig s i hi⟩
  · intro hsg
    subst hsg
    exact fun i hi => calib_secureboot_build_data_zero_no_sig mode param2 dig i hi

/-- C5 (witness): the payload layout evaluated on two concrete packets, one
with a signature (digest byte, signature byte, zero past 96) and one without
(digest byte, zero past 32). -/
theorem C5_witness :
    (calib_secureboot envOk (some dev608) SECUREBOOT_MODE_FULL 0 (some digBuf)
        (some sigBuf) false).sent
      = some (calib_secureboot_build SECUREBOOT_MODE_FULL 0 digBuf (some sigBuf))
    ∧ (calib_secureboot_build SECUREBOOT_MODE_FULL 0 digBuf (some sigBuf)).data 5
      = digBuf 5
    ∧ (calib_secureboot_build SECUREBOOT_MODE_FULL 0 digBuf (some sigBuf)).data
        (SECUREBOOT_DIGEST_SIZE + 5) = sigBuf 5
    ∧ (calib_secureboot_build SECUREBOOT_MODE_FULL 0 digBuf (some sigBuf)).data 96
      = 0
    ∧ (calib_secureboot envOk (some dev608) SECUREBOOT_MODE_FULLSTORE 0
        (some digBuf) none false).sent
      = some (calib_secureboot_build SECUREBOOT_MODE_FULLSTORE 0 digBuf none)
    ∧ (calib_secureboot_build SECUREBOOT_MODE_FULLSTORE 0 digBuf none).data 5
      = digBuf 5
    ∧ (calib_secureboot_build SECUREBOOT_MODE_FULLSTORE 0 digBuf none).data 32
      = 0 := by
  have hs1 : (calib_secureboot envOk (some dev608) SECUREBOOT_MODE_FULL 0
      (some digBuf) (some sigBuf) false).sent
      = some (calib_secureboot_build SECUREBOOT_MODE_FULL 0 digBuf (some sigBuf)) := rfl
  have hs2 : (calib_secureboot envOk (some dev608) SECUREBOOT_MODE_FULLSTORE 0
      (some digBuf) none false).sent
      = some (calib_secureboot_build SECUREBOOT_MODE_FULLSTORE 0 digBuf none) := rfl
  have h1 := C5_secureboot_packet_payload envOk (some dev608) SECUREBOOT_MODE_FULL 0
    (some digBuf) (some sigBuf) false
    (calib_secureboot_build SECUREBOOT_MODE_FULL 0 digBuf (some sigBuf)) hs1
  have h2 := C5_secureboot_packet_payload envOk (some dev608) SECUREBOOT_MODE_FULLSTORE 0
    (some digBuf) none false
    (calib_secureboot_build SECUREBOOT_MODE_FULLSTORE 0 digBuf none) hs2
  exact ⟨hs1, h1.1 digBuf rfl 5 (by decide), (h1.2.1 sigBuf rfl).1 5 (by decide),
    (h1.2.1 sigBuf rfl).2 96 (by decide), hs2, h2.1 digBuf rfl 5 (by decide),
    h2.2.2 rfl 32 (by decide)⟩

/-- Helper: the verify packet's param1 is the full mode byte. -/
lemma calib_verify_build_param1 (mode key_id : Nat) (sig : Buf)
    (pk od : Option Buf) : (calib_verify_build mode key_id sig pk od).param1 = mode := rfl

/-- Helper: the verify packet's param2 is the key identifier. -/
lemma calib_verify_build_param2 (mode key_id : Nat) (sig : Buf)
    (pk od : Option Buf) : (calib_verify_build mode key_id sig pk od).param2 = key_id := rfl

/-- Helper: the SecureBoot packet's param1 is the mode byte. -/
lemma calib_secureboot_build_param1 (mode param2 : Nat) (dig : Buf)
    (s : Option Buf) : (calib_secureboot_build mode param2 dig s).param1 = mode := rfl

/-- Helper: the SecureBoot packet's param2 is the raw parameter. -/
lemma calib_secureboot_build_param2 (mode param2 : Nat) (dig : Buf)
    (s : Option Buf) : (calib_secureboot_build mode param2 dig s).param2 = param2 := rfl

/-- C7: in `calib_secureboot` and `calib_verify`, once the packet reaches
the executor the function returns the execution status unchanged, and the
caller's mac buffer is written — with exactly 32 bytes copied from the
response data area — only when execution succeeded, the caller supplied a
mac pointer, and the response's declared count field is at least the size of
a MAC-bearing response (35 bytes); in every other case the mac buffer is
left unchanged (`none`). -/
theorem C7_mac_copy_out :
    (∀ (env : CalibEnv) (dev : ATCADeviceRec) (mode param2 : Nat) (dig : Buf)
      (signature : Option Buf) (macWanted : Bool),
      env.allocOk = true →
      env.atSecureBootStatus dev.devtype mode param2 = .ATCA_SUCCESS →
      (calib_secureboot env (some dev) mode param2 (some dig) signature
          macWanted).status
        = (env.execute (calib_secureboot_build mode param2 dig signature)).1
      ∧ (calib_secureboot env (some dev) mode param2 (some dig) signature
          macWanted).macOut
        = (if (env.execute (calib_secureboot_build mode param2 dig signature)).1
                = .ATCA_SUCCESS
              ∧ macWanted = true
              ∧ SECUREBOOT_RSP_SIZE_MAC ≤
                (env.execute (calib_secureboot_build mode param2 dig signature)).2
                  ATCA_COUNT_IDX
            then some ((List.range SECUREBOOT_MAC_SIZE).map
              (fun i => (env.execute
                (calib_secureboot_build mode param2 dig signature)).2
                (ATCA_RSP_DATA_IDX + i)))
            else none))
    ∧ (∀ (env : CalibEnv) (dev : ATCADeviceRec) (mode key_id : Nat) (sig : Buf)
      (public_key other_data : Option Buf) (macWanted : Bool),
      ¬(mode &&& VERIFY_MODE_MASK = VERIFY_MODE_EXTERNAL
        ∧ public_key.isNone = true) →
      ¬((mode &&& VERIFY_MODE_MASK = VERIFY_MODE_VALIDATE
          ∨ mode &&& VERIFY_MODE_MASK = VERIFY_MODE_INVALIDATE)
        ∧ other_data.isNone = true) →
      env.allocOk = true →
      env.atVerifyStatus dev.devtype mode key_id = .ATCA_SUCCESS →
      (calib_verify env (some dev) mode key_id (some sig) public_key other_data
          macWanted).status
        = (env.execute (calib_verify_build mode key_id sig public_key other_data)).1
      ∧ (calib_verify env (some dev) mode key_id (some sig) public_key other_data
          macWanted).macOut
        = (if (env.execute (calib_verify_build mode key_id sig public_key
                other_data)).1 = .ATCA_SUCCESS
              ∧ macWanted = true
              ∧ ATCA_PACKET_OVERHEAD + MAC_SIZE ≤
                (env.execute (calib_verify_build mode key_id sig public_key
                  other_data)).2 ATCA_COUNT_IDX
            then some ((List.range MAC_SIZE).map
              (fun i => (env.execute
                (calib_verify_build mode key_id sig public_key other_data)).2
                (ATCA_RSP_DATA_IDX + i)))
            else none)) := by
  constructor
  · intro env dev mode param2 dig signature macWanted halloc hat
    unfold calib_secureboot
    simp only [calib_secureboot_build_param1, calib_secureboot_build_param2]
    simp [halloc, hat]
    rcases hres : (env.execute (calib_secureboot_build mode param2 dig signature)).1 <;>
      simp [hres]
  · intro env dev mode key_id sig public_key other_data macWanted hpk hod halloc hat
    unfold calib_verify
    simp only [calib_verify_build_param1, calib_verify_build_param2]
    rw [if_neg hpk, if_neg hod]
    simp [halloc, hat]
    rcases hres : (env.execute (calib_verify_build mode key_id sig public_key other_data)).1 <;>
      simp [hres]

/-- C7 (witness): concrete MAC copy-out: with a MAC-bearing response (count
35) the requested 32 bytes are copied for both commands; with no mac pointer
the buffer is untouched. -/
theorem C7_witness :
    (calib_secureboot envOk (some dev608) SECUREBOOT_MODE_FULL 0 (some digBuf)
        (some sigBuf) true).status = .ATCA_SUCCESS
    ∧ (calib_secureboot envOk (some dev608) SECUREBOOT_MODE_FULL 0 (some digBuf)
        (some sigBuf) true).macOut
      = some ((List.range SECUREBOOT_MAC_SIZE).map
          (fun i => respOk (ATCA_RSP_DATA_IDX + i)))
    ∧ (calib_verify envOk (some dev608) VERIFY_MODE_EXTERNAL 4 (some sigBuf)
        (some pkBuf) none true).macOut
      = some ((List.range MAC_SIZE).map (fun i => respOk (ATCA_RSP_DATA_IDX + i)))
    ∧ (calib_verify envOk (some dev608) VERIFY_MODE_EXTERNAL 4 (some sigBuf)
        (some pkBuf) none false).macOut = none := by
  have h1 := C7_mac_copy_out.1 envOk dev608 SECUREBOOT_MODE_FULL 0 digBuf
    (some sigBuf) true rfl rfl
  have h2 := C7_mac_copy_out.2 envOk dev608 VERIFY_MODE_EXTERNAL 4 sigBuf
    (some pkBuf) none true (by decide) (by decide) rfl rfl
  have h3 := C7_mac_copy_out.2 envOk dev608 VERIFY_MODE_EXTERNAL 4 sigBuf
    (some pkBuf) none false (by decide) (by decide) rfl rfl
  exact ⟨h1.1.trans (by decide), h1.2.trans (by decide), h2.2.trans (by decide),
    h3.2.trans (by decide)⟩

/-- Helper: once the argument checks pass, `calib_verify`'s trace is a
single executor invocation carrying mode and key identifier. -/
lemma calib_verify_trace_exec (env : CalibEnv) (dev : ATCADeviceRec)
    (mode key_id : Nat) (sig : Buf) (pk od : Option Buf) (macW : Bool)
    (hpk : ¬(mode &&& VERIFY_MODE_MASK = VERIFY_MODE_EXTERNAL ∧ pk.isNone = true))
    (hod : ¬((mode &&& VERIFY_MODE_MASK = VERIFY_MODE_VALIDATE
      ∨ mode &&& VERIFY_MODE_MASK = VERIFY_MODE_INVALIDATE) ∧ od.isNone = true))
    (halloc : env.allocOk = true)
    (hat : env.atVerifyStatus dev.devtype mode key_id = .ATCA_SUCCESS) :
    (calib_verify env (some dev) mode key_id (some sig) pk od macW).trace
      = [CalibEvent.execCmd mode key_id] := by
  unfold calib_verify
  simp only [calib_verify_build_param1, calib_verify_build_param2]
  rw [if_neg hpk, if_neg hod]
  simp [halloc, hat]
  split <;> simp

/-- Helper: with a successful message load, `calib_verify_external`'s trace
is the nonce-load event followed by the delegated `calib_verify` trace. -/
lemma calib_verify_external_trace (env : CalibEnv) (dev : ATCADeviceRec)
    (msg sig pkb : Buf)
    (hn : env.nonceLoad (if dev.devtype = ATCADeviceType.ATECC608 then
      NONCE_MODE_TARGET_MSGDIGBUF else NONCE_MODE_TARGET_TEMPKEY) = .ATCA_SUCCESS) :
    (calib_verify_external env (some dev) (some msg) (some sig) (some pkb)
        false).trace
      = CalibEvent.nonceLoad (if dev.devtype = ATCADeviceType.ATECC608 then
          NONCE_MODE_TARGET_MSGDIGBUF else NONCE_MODE_TARGET_TEMPKEY) 32
        :: (calib_verify env (some dev)
          (VERIFY_MODE_EXTERNAL ||| (if dev.devtype = ATCADeviceType.ATECC608 then
            VERIFY_MODE_SOURCE_MSGDIGBUF else VERIFY_MODE_SOURCE_TEMPKEY))
          VERIFY_KEY_P256 (some sig) (some pkb) none false).trace := by
  unfold calib_verify_external
  by_cases hd : dev.devtype = ATCADeviceType.ATECC608 <;>
    simp only [hd, eq_self_iff_true, if_true, if_false] at hn ⊢ <;>
    (rw [hn]; rfl)

/-- Helper: with a successful message load, `calib_verify_stored`'s trace is
the nonce-load event followed by the delegated `calib_verify` trace. -/
lemma calib_verify_stored_trace (env : CalibEnv) (dev : ATCADeviceRec)
    (msg sig : Buf) (key_id : Nat)
    (hn : env.nonceLoad (if dev.devtype = ATCADeviceType.ATECC608 then
      NONCE_MODE_TARGET_MSGDIGBUF else NONCE_MODE_TARGET_TEMPKEY) = .ATCA_SUCCESS) :
    (calib_verify_stored env (some dev) (some msg) (some sig) key_id
        false).trace
      = CalibEvent.nonceLoad (if dev.devtype = ATCADeviceType.ATECC608 then
          NONCE_MODE_TARGET_MSGDIGBUF else NONCE_MODE_TARGET_TEMPKEY) 32
        :: (calib_verify env (some dev)
          (VERIFY_MODE_STORED ||| (if dev.devtype = ATCADeviceType.ATECC608 then
            VERIFY_MODE_SOURCE_MSGDIGBUF else VERIFY_MODE_SOURCE_TEMPKEY))
          key_id (some sig) none none false).trace := by
  unfold calib_verify_stored
  by_cases hd : dev.devtype = ATCADeviceType.ATECC608 <;>
    simp only [hd, eq_self_iff_true, if_true, if_false] at hn ⊢ <;>
    (rw [hn]; rfl)

/-- C8: `calib_verify_extern` and `calib_verify_stored` (with non-null
arguments) first load the 32-byte message into the device — targeting the
message digest buffer and using the message-digest-buffer verify source when
the device-variant tag is ATECC608, and the legacy TempKey target and source
for every other variant — and then delegate to `calib_verify` with the
corresponding fixed mode constant (External with the P256 key type, or
Stored with the caller's key identifier). -/
theorem C8_wrapper_buffer_targeting :
    (∀ (env : CalibEnv) (dev : ATCADeviceRec) (msg sig pkb : Buf),
      env.nonceLoad (if dev.devtype = ATCADeviceType.ATECC608 then
        NONCE_MODE_TARGET_MSGDIGBUF else NONCE_MODE_TARGET_TEMPKEY) = .ATCA_SUCCESS →
      env.allocOk = true →
      env.atVerifyStatus dev.devtype
        (VERIFY_MODE_EXTERNAL ||| (if dev.devtype = ATCADeviceType.ATECC608 then
          VERIFY_MODE_SOURCE_MSGDIGBUF else VERIFY_MODE_SOURCE_TEMPKEY))
        VERIFY_KEY_P256 = .ATCA_SUCCESS →
      (calib_verify_external env (some dev) (some msg) (some sig) (some pkb)
          false).trace
        = [CalibEvent.nonceLoad (if dev.devtype = ATCADeviceType.ATECC608 then
            NONCE_MODE_TARGET_MSGDIGBUF else NONCE_MODE_TARGET_TEMPKEY) 32,
          CalibEvent.execCmd
            (VERIFY_MODE_EXTERNAL ||| (if dev.devtype = ATCADeviceType.ATECC608 then
              VERIFY_MODE_SOURCE_MSGDIGBUF else VERIFY_MODE_SOURCE_TEMPKEY))
            VERIFY_KEY_P256])
    ∧ (∀ (env : CalibEnv) (dev : ATCADeviceRec) (msg sig : Buf) (key_id : Nat),
      env.nonceLoad (if dev.devtype = ATCADeviceType.ATECC608 then
        NONCE_MODE_TARGET_MSGDIGBUF else NONCE_MODE_TARGET_TEMPKEY) = .ATCA_SUCCESS →
      env.allocOk = true →
      env.atVerifyStatus dev.devtype
        (VERIFY_MODE_STORED ||| (if dev.devtype = ATCADeviceType.ATECC608 then
          VERIFY_MODE_SOURCE_MSGDIGBUF else VERIFY_MODE_SOURCE_TEMPKEY))
        key_id = .ATCA_SUCCESS →
      (calib_verify_stored env (some dev) (some msg) (some sig) key_id
          false).trace
        = [CalibEvent.nonceLoad (if dev.devtype = ATCADeviceType.ATECC608 then
            NONCE_MODE_TARGET_MSGDIGBUF else NONCE_MODE_TARGET_TEMPKEY) 32,
          CalibEvent.execCmd
            (VERIFY_MODE_STORED ||| (if dev.devtype = ATCADeviceType.ATECC608 then
              VERIFY_MODE_SOURCE_MSGDIGBUF else VERIFY_MODE_SOURCE_TEMPKEY))
            key_id]) := by
  constructor
  · intro env dev msg sig pkb hn halloc hat
    rw [calib_verify_external_trace env dev msg sig pkb hn,
      calib_verify_trace_exec env dev _ _ sig (some pkb) none false
        (by simp) (by by_cases hd : dev.devtype = ATCADeviceType.ATECC608 <;>
          simp only [hd, eq_self_iff_true, if_true, if_false] <;> decide)
        halloc hat]
  · intro env dev msg sig key_id hn halloc hat
    rw [calib_verify_stored_trace env dev msg sig key_id hn,
      calib_verify_trace_exec env dev _ _ sig none none false
        (by by_cases hd : dev.devtype = ATCADeviceType.ATECC608 <;>
          simp only [hd, eq_self_iff_true, if_true, if_false] <;> decide)
        (by by_cases hd : dev.devtype = ATCADeviceType.ATECC608 <;>
          simp only [hd, eq_self_iff_true, if_true, if_false] <;> decide)
        halloc hat]

/-- C8 (witness): buffer targeting evaluated on an ATECC608 device (message
digest buffer) and a non-608 device (legacy TempKey), for both wrappers. -/
theorem C8_witness :
    (calib_verify_external envOk (some dev608) (some msgBuf) (some sigBuf)
        (some pkBuf) false).trace
      = [CalibEvent.nonceLoad NONCE_MODE_TARGET_MSGDIGBUF 32,
        CalibEvent.execCmd (VERIFY_MODE_EXTERNAL ||| VERIFY_MODE_SOURCE_MSGDIGBUF)
          VERIFY_KEY_P256]
    ∧ (calib_verify_external envOk (some dev508) (some msgBuf) (some sigBuf)
        (some pkBuf) false).trace
      = [CalibEvent.nonceLoad NONCE_MODE_TARGET_TEMPKEY 32,
        CalibEvent.execCmd (VERIFY_MODE_EXTERNAL ||| VERIFY_MODE_SOURCE_TEMPKEY)
          VERIFY_KEY_P256]
    ∧ (calib_verify_stored envOk (some dev608) (some msgBuf) (some sigBuf) 2
        false).trace
      = [CalibEvent.nonceLoad NONCE_MODE_TARGET_MSGDIGBUF 32,
        CalibEvent.execCmd (VERIFY_MODE_STORED ||| VERIFY_MODE_SOURCE_MSGDIGBUF) 2]
    ∧ (calib_verify_stored envOk (some dev508) (some msgBuf) (some sigBuf) 2
        false).trace
      = [CalibEvent.nonceLoad NONCE_MODE_TARGET_TEMPKEY 32,
        CalibEvent.execCmd (VERIFY_MODE_STORED ||| VERIFY_MODE_SOURCE_TEMPKEY) 2] := by
  have h1 := C8_wrapper_buffer_targeting.1 envOk dev608 msgBuf sigBuf pkBuf rfl rfl rfl
  have h2 := C8_wrapper_buffer_targeting.1 envOk dev508 msgBuf sigBuf pkBuf rfl rfl rfl
  have h3 := C8_wrapper_buffer_targeting.2 envOk dev608 msgBuf sigBuf 2 rfl rfl rfl
  have h4 := C8_wrapper_buffer_targeting.2 envOk dev508 msgBuf sigBuf 2 rfl rfl rfl
  exact ⟨h1.trans (by decide), h2.trans (by decide), h3.trans (by decide),
    h4.trans (by decide)⟩

/-- C2: every MAC- or signature-verifying entry point
(`calib_verify_extern`, `calib_verify_stored`,
`calib_verify_stored_with_tempkey`, `calib_verify_validate`,
`calib_verify_invalidate`, `calib_verify_extern_stored_mac`,
`calib_secureboot_mac`) converts the verification-mismatch status
(`ATCA_CHECKMAC_VERIFY_FAILED`) of the underlying command into
`ATCA_SUCCESS` with `*is_verified = false`, and propagates every other
non-success command status to the caller unchanged (also with
`*is_verified = false`). -/
theorem C2_mismatch_normalization :
    (∀ (env : CalibEnv) (dev : ATCADeviceRec) (msg sig pkb : Buf),
      env.nonceLoad (if dev.devtype = ATCADeviceType.ATECC608 then
        NONCE_MODE_TARGET_MSGDIGBUF else NONCE_MODE_TARGET_TEMPKEY) = .ATCA_SUCCESS →
      (calib_verify_external env (some dev) (some msg) (some sig) (some pkb)
          false).status
        = (if (calib_verify env (some dev)
              (VERIFY_MODE_EXTERNAL ||| (if dev.devtype = ATCADeviceType.ATECC608
                then VERIFY_MODE_SOURCE_MSGDIGBUF else VERIFY_MODE_SOURCE_TEMPKEY))
              VERIFY_KEY_P256 (some sig) (some pkb) none false).status
              = .ATCA_CHECKMAC_VERIFY_FAILED
            then .ATCA_SUCCESS
            else (calib_verify env (some dev)
              (VERIFY_MODE_EXTERNAL ||| (if dev.devtype = ATCADeviceType.ATECC608
                then VERIFY_MODE_SOURCE_MSGDIGBUF else VERIFY_MODE_SOURCE_TEMPKEY))
              VERIFY_KEY_P256 (some sig) (some pkb) none false).status)
      ∧ ((calib_verify env (some dev)
            (VERIFY_MODE_EXTERNAL ||| (if dev.devtype = ATCADeviceType.ATECC608
              then VERIFY_MODE_SOURCE_MSGDIGBUF else VERIFY_MODE_SOURCE_TEMPKEY))
            VERIFY_KEY_P256 (some sig) (some pkb) none false).status
            ≠ .ATCA_SUCCESS →
          (calib_verify_external env (some dev) (some msg) (some sig) (some pkb)
            false).isVerified = some false))
    ∧ (∀ (env : CalibEnv) (dev : ATCADeviceRec) (msg sig : Buf) (key_id : Nat),
      env.nonceLoad (if dev.devtype = ATCADeviceType.ATECC608 then
        NONCE_MODE_TARGET_MSGDIGBUF else NONCE_MODE_TARGET_TEMPKEY) = .ATCA_SUCCESS →
      (calib_verify_stored env (some dev) (some msg) (some sig) key_id
          false).status
        = (if (calib_verify env (some dev)
              (VERIFY_MODE_STORED ||| (if dev.devtype = ATCADeviceType.ATECC608
                then VERIFY_MODE_SOURCE_MSGDIGBUF else VERIFY_MODE_SOURCE_TEMPKEY))
              key_id (some sig) none none false).status
              = .ATCA_CHECKMAC_VERIFY_FAILED
            then .ATCA_SUCCESS
            else (calib_verify env (some dev)
              (VERIFY_MODE_STORED ||| (if dev.devtype = ATCADeviceType.ATECC608
                then VERIFY_MODE_SOURCE_MSGDIGBUF else VERIFY_MODE_SOURCE_TEMPKEY))
              key_id (some sig) none none false).status)
      ∧ ((calib_verify env (some dev)
            (VERIFY_MODE_STORED ||| (if dev.devtype = ATCADeviceType.ATECC608
              then VERIFY_MODE_SOURCE_MSGDIGBUF else VERIFY_MODE_SOURCE_TEMPKEY))
            key_id (some sig) none none false).status ≠ .ATCA_SUCCESS →
          (calib_verify_stored env (some dev) (some msg) (some sig) key_id
            false).isVerified = some false))
    ∧ (∀ (env : CalibEnv) (device : Option ATCADeviceRec) (dev : ATCADeviceRec)
        (sig : Buf) (key_id : Nat),
      device = some dev →
      (calib_verify_stored_with_tempkey env device (some sig) key_id false).status
        = (if (calib_verify env device
              (VERIFY_MODE_STORED ||| VERIFY_MODE_SOURCE_TEMPKEY) key_id
              (some sig) none none false).status = .ATCA_CHECKMAC_VERIFY_FAILED
            then .ATCA_SUCCESS
            else (calib_verify env device
              (VERIFY_MODE_STORED ||| VERIFY_MODE_SOURCE_TEMPKEY) key_id
              (some sig) none none false).status)
      ∧ ((calib_verify env device
            (VERIFY_MODE_STORED ||| VERIFY_MODE_SOURCE_TEMPKEY) key_id
            (some sig) none none false).status ≠ .ATCA_SUCCESS →
          (calib_verify_stored_with_tempkey env device (some sig) key_id
            false).isVerified = some false))
    ∧ (∀ (env : CalibEnv) (device : Option ATCADeviceRec) (dev : ATCADeviceRec)
        (sig od : Buf) (key_id : Nat),
      device = some dev →
      (calib_verify_validate env device key_id (some sig) (some od) false).status
        = (if (calib_verify env device VERIFY_MODE_VALIDATE key_id (some sig)
              none (some od) false).status = .ATCA_CHECKMAC_VERIFY_FAILED
            then .ATCA_SUCCESS
            else (calib_verify env device VERIFY_MODE_VALIDATE key_id (some sig)
              none (some od) false).status)
      ∧ ((calib_verify env device VERIFY_MODE_VALIDATE key_id (some sig) none
            (some od) false).status ≠ .ATCA_SUCCESS →
          (calib_verify_validate env device key_id (some sig) (some od)
            false).isVerified = some false))
    ∧ (∀ (env : CalibEnv) (device : Option ATCADeviceRec) (dev : ATCADeviceRec)
        (sig od : Buf) (key_id : Nat),
      device = some dev →
      (calib_verify_invalidate env device key_id (some sig) (some od) false).status
        = (if (calib_verify env device VERIFY_MODE_INVALIDATE key_id (some sig)
              none (some od) false).status = .ATCA_CHECKMAC_VERIFY_FAILED
            then .ATCA_SUCCESS
            else (calib_verify env device VERIFY_MODE_INVALIDATE key_id (some sig)
              none (some od) false).status)
      ∧ ((calib_verify env device VERIFY_MODE_INVALIDATE key_id (some sig) none
            (some od) false).status ≠ .ATCA_SUCCESS →
          (calib_verify_invalidate env device key_id (some sig) (some od)
            false).isVerified = some false))
    ∧ (∀ (env : CalibEnv) (device : Option ATCADeviceRec) (mode key_id : Nat)
        (msg sig : Buf) (pk : Option Buf) (num io : Buf),
      ¬(mode &&& VERIFY_MODE_MASK = VERIFY_MODE_EXTERNAL ∧ pk.isNone = true) →
      env.nonceLoad NONCE_MODE_TARGET_MSGDIGBUF = .ATCA_SUCCESS →
      env.verifyMacStatus = .ATCA_SUCCESS →
      (calib_verify env device
        (mode ||| VERIFY_MODE_SOURCE_MSGDIGBUF ||| VERIFY_MODE_MAC_FLAG) key_id
        (some sig) pk none true).status ≠ .ATCA_SUCCESS →
      (calib_verify_extern_stored_mac env device mode key_id (some msg)
          (some sig) pk (some num) (some io) false).status
        = (if (calib_verify env device
              (mode ||| VERIFY_MODE_SOURCE_MSGDIGBUF ||| VERIFY_MODE_MAC_FLAG)
              key_id (some sig) pk none true).status
              = .ATCA_CHECKMAC_VERIFY_FAILED
            then .ATCA_SUCCESS
            else (calib_verify env device
              (mode ||| VERIFY_MODE_SOURCE_MSGDIGBUF ||| VERIFY_MODE_MAC_FLAG)
              key_id (some sig) pk none true).status)
      ∧ (calib_verify_extern_stored_mac env device mode key_id (some msg)
          (some sig) pk (some num) (some io) false).isVerified = some false)
    ∧ (∀ (env : CalibEnv) (device : Option ATCADeviceRec) (mode : Nat)
        (dig : Buf) (signature : Option Buf) (num io : Buf),
      env.nonceBase = .ATCA_SUCCESS →
      env.hostNonceStatus = .ATCA_SUCCESS →
      env.sbootEncStatus = .ATCA_SUCCESS →
      (calib_secureboot env device (mode ||| SECUREBOOT_MODE_ENC_MAC_FLAG) 0
        (some env.sbootDigestEnc) signature true).status ≠ .ATCA_SUCCESS →
      (calib_secureboot_mac env device mode (some dig) signature (some num)
          (some io) false).status
        = (if (calib_secureboot env device (mode ||| SECUREBOOT_MODE_ENC_MAC_FLAG)
              0 (some env.sbootDigestEnc) signature true).status
              = .ATCA_CHECKMAC_VERIFY_FAILED
            then .ATCA_SUCCESS
            else (calib_secureboot env device
              (mode ||| SECUREBOOT_MODE_ENC_MAC_FLAG) 0 (some env.sbootDigestEnc)
              signature true).status)
      ∧ (calib_secureboot_mac env device mode (some dig) signature (some num)
          (some io) false).isVerified = some false) := by
  refine ⟨?_, ?_, ?_, ?_, ?_, ?_, ?_⟩
  · intro env dev msg sig pkb hn
    unfold calib_verify_external
    by_cases hd : dev.devtype = ATCADeviceType.ATECC608 <;>
      simp only [hd, eq_self_iff_true, if_true, if_false] at hn ⊢ <;>
      rw [hn] <;>
      exact ⟨rfl, fun hne => by simp_all⟩
  · intro env dev msg sig key_id hn
    unfold calib_verify_stored
    by_cases hd : dev.devtype = ATCADeviceType.ATECC608 <;>
      simp only [hd, eq_self_iff_true, if_true, if_false] at hn ⊢ <;>
      rw [hn] <;>
      exact ⟨rfl, fun hne => by simp_all⟩
  · intro env device dev sig key_id hdev
    subst hdev
    unfold calib_verify_stored_with_tempkey
    exact ⟨rfl, fun hne => by simp_all⟩
  · intro env device dev sig od key_id hdev
    subst hdev
    unfold calib_verify_validate
    exact ⟨rfl, fun hne => by simp_all⟩
  · intro env device dev sig od key_id hdev
    subst hdev
    unfold calib_verify_invalidate
    exact ⟨rfl, fun hne => by simp_all⟩
  · intro env device mode key_id msg sig pk num io hpk hn hm hne
    unfold calib_verify_extern_stored_mac
    rw [if_neg (by simpa using hpk)]
    rw [hn, hm]
    rcases hv : (calib_verify env device
        (mode ||| VERIFY_MODE_SOURCE_MSGDIGBUF ||| VERIFY_MODE_MAC_FLAG) key_id
        (some sig) pk none true).status <;>
      simp_all
  · intro env device mode dig signature num io h1 h2 h3 hne
    unfold calib_secureboot_mac
    rw [if_neg (by simp)]
    rw [h1, h2, h3]
    rcases hv : (calib_secureboot env device (mode ||| SECUREBOOT_MODE_ENC_MAC_FLAG)
        0 (some env.sbootDigestEnc) signature true).status <;>
      simp_all

/-- C2 (witness): concrete runs: a mismatch-reporting executor yields
overall success with `is_verified = false`, and an opaque transport fault
(status 9) propagates unchanged, across representative entry points. -/
theorem C2_witness :
    (calib_verify_external envMismatch (some dev608) (some msgBuf) (some sigBuf)
        (some pkBuf) false).status = .ATCA_SUCCESS
    ∧ (calib_verify_external envMismatch (some dev608) (some msgBuf) (some sigBuf)
        (some pkBuf) false).isVerified = some false
    ∧ (calib_verify_external envFail (some dev608) (some msgBuf) (some sigBuf)
        (some pkBuf) false).status = .otherError 9
    ∧ (calib_verify_validate envMismatch (some dev608) 2 (some sigBuf)
        (some odBuf) false).status = .ATCA_SUCCESS
    ∧ (calib_verify_validate envFail (some dev608) 2 (some sigBuf)
        (some odBuf) false).status = .otherError 9
    ∧ (calib_secureboot_mac envMismatch (some dev608) SECUREBOOT_MODE_FULL
        (some digBuf) (some sigBuf) (some numBuf) (some ioBuf) false).status
      = .ATCA_SUCCESS
    ∧ (calib_secureboot_mac envMismatch (some dev608) SECUREBOOT_MODE_FULL
        (some digBuf) (some sigBuf) (some numBuf) (some ioBuf) false).isVerified
      = some false
    ∧ (calib_verify_extern_stored_mac envFail (some dev608) VERIFY_MODE_EXTERNAL 4
        (some msgBuf) (some sigBuf) (some pkBuf) (some numBuf) (some ioBuf)
        false).status = .otherError 9 := by
  have e1 := C2_mismatch_normalization.1 envMismatch dev608 msgBuf sigBuf pkBuf rfl
  have e2 := C2_mismatch_normalization.1 envFail dev608 msgBuf sigBuf pkBuf rfl
  have e3 := C2_mismatch_normalization.2.2.2.1 envMismatch (some dev608) dev608
    sigBuf odBuf 2 rfl
  have e4 := C2_mismatch_normalization.2.2.2.1 envFail (some dev608) dev608
    sigBuf odBuf 2 rfl
  have e5 := C2_mismatch_normalization.2.2.2.2.2.2 envMismatch (some dev608)
    SECUREBOOT_MODE_FULL digBuf (some sigBuf) numBuf ioBuf rfl rfl rfl (by decide)
  have e6 := C2_mismatch_normalization.2.2.2.2.2.1 envFail (some dev608)
    VERIFY_MODE_EXTERNAL 4 msgBuf sigBuf (some pkBuf) numBuf ioBuf (by decide)
    rfl rfl (by decide)
  exact ⟨e1.1.trans (by decide), e1.2 (by decide), e2.1.trans (by decide),
    e3.1.trans (by decide), e4.1.trans (by decide), e5.1.trans (by decide),
    e5.2, e6.1.trans (by decide)⟩

/-- C10: in every verifying entry point, `*is_verified` is written `false`
before any fallible step and becomes `true` only via the final comparison
(or final command status) after every prior step succeeded; consequently
`*is_verified = true` can only occur together with an `ATCA_SUCCESS` return,
for all environments and all arguments. -/
theorem C10_verified_implies_success :
    (∀ (env : CalibEnv) (device : Option ATCADeviceRec)
      (msg sig pk : Option Buf) (ivN : Bool),
      (calib_verify_external env device msg sig pk ivN).isVerified = some true →
      (calib_verify_external env device msg sig pk ivN).status = .ATCA_SUCCESS)
    ∧ (∀ (env : CalibEnv) (device : Option ATCADeviceRec)
      (msg sig : Option Buf) (key_id : Nat) (ivN : Bool),
      (calib_verify_stored env device msg sig key_id ivN).isVerified = some true →
      (calib_verify_stored env device msg sig key_id ivN).status = .ATCA_SUCCESS)
    ∧ (∀ (env : CalibEnv) (device : Option ATCADeviceRec) (sig : Option Buf)
      (key_id : Nat) (ivN : Bool),
      (calib_verify_stored_with_tempkey env device sig key_id ivN).isVerified
        = some true →
      (calib_verify_stored_with_tempkey env device sig key_id ivN).status
        = .ATCA_SUCCESS)
    ∧ (∀ (env : CalibEnv) (device : Option ATCADeviceRec) (key_id : Nat)
      (sig od : Option Buf) (ivN : Bool),
      (calib_verify_validate env device key_id sig od ivN).isVerified = some true →
      (calib_verify_validate env device key_id sig od ivN).status = .ATCA_SUCCESS)
    ∧ (∀ (env : CalibEnv) (device : Option ATCADeviceRec) (key_id : Nat)
      (sig od : Option Buf) (ivN : Bool),
      (calib_verify_invalidate env device key_id sig od ivN).isVerified = some true →
      (calib_verify_invalidate env device key_id sig od ivN).status = .ATCA_SUCCESS)
    ∧ (∀ (env : CalibEnv) (device : Option ATCADeviceRec) (mode key_id : Nat)
      (msg sig pk num io : Option Buf) (ivN : Bool),
      (calib_verify_extern_stored_mac env device mode key_id msg sig pk num io
        ivN).isVerified = some true →
      (calib_verify_extern_stored_mac env device mode key_id msg sig pk num io
        ivN).status = .ATCA_SUCCESS)
    ∧ (∀ (env : CalibEnv) (device : Option ATCADeviceRec) (mode : Nat)
      (dig signature num io : Option Buf) (ivN : Bool),
      (calib_secureboot_mac env device mode dig signature num io ivN).isVerified
        = some true →
      (calib_secureboot_mac env device mode dig signature num io ivN).status
        = .ATCA_SUCCESS) := by
  refine ⟨?_, ?_, ?_, ?_, ?_, ?_, ?_⟩
  · intro env device msg sig pk ivN h
    unfold calib_verify_external at h ⊢
    repeat' split at h
    all_goals (try (cases hnl : env.nonceLoad NONCE_MODE_TARGET_MSGDIGBUF <;> simp_all))
    all_goals (try (cases hnl : env.nonceLoad NONCE_MODE_TARGET_TEMPKEY <;> simp_all))
    all_goals simp_all
  · intro env device msg sig key_id ivN h
    unfold calib_verify_stored at h ⊢
    repeat' split at h
    all_goals (try (cases hnl : env.nonceLoad NONCE_MODE_TARGET_MSGDIGBUF <;> simp_all))
    all_goals (try (cases hnl : env.nonceLoad NONCE_MODE_TARGET_TEMPKEY <;> simp_all))
    all_goals simp_all
  · intro env device sig key_id ivN h
    unfold calib_verify_stored_with_tempkey at h ⊢
    repeat' split at h
    all_goals simp_all
  · intro env device key_id sig od ivN h
    unfold calib_verify_validate at h ⊢
    repeat' split at h
    all_goals simp_all
  · intro env device key_id sig od ivN h
    unfold calib_verify_invalidate at h ⊢
    repeat' split at h
    all_goals simp_all
  · intro env device mode key_id msg sig pk num io ivN h
    unfold calib_verify_extern_stored_mac at h ⊢
    by_cases hc : ivN = true ∨ sig.isNone = true ∨ msg.isNone = true
        ∨ num.isNone = true ∨ io.isNone = true
        ∨ (mode &&& VERIFY_MODE_MASK = VERIFY_MODE_EXTERNAL ∧ pk.isNone = true)
    · rw [if_pos hc] at h
      simp at h
    · rw [if_neg hc] at h ⊢
      cases hnl : env.nonceLoad NONCE_MODE_TARGET_MSGDIGBUF <;> simp_all
      all_goals (try (cases hvm : env.verifyMacStatus <;> simp_all))
      all_goals (try (cases hv : (calib_verify env device
        (mode ||| VERIFY_MODE_SOURCE_MSGDIGBUF ||| VERIFY_MODE_MAC_FLAG) key_id sig pk
        none true).status <;> simp_all))
  · intro env device mode dig signature num io ivN h
    unfold calib_secureboot_mac at h ⊢
    by_cases hc : ivN = true ∨ dig.isNone = true ∨ num.isNone = true ∨ io.isNone = true
    · rw [if_pos hc] at h
      simp at h
    · rw [if_neg hc] at h ⊢
      cases h1 : env.nonceBase <;> simp_all
      all_goals (try (cases h2 : env.hostNonceStatus <;> simp_all))
      all_goals (try (cases h3 : env.sbootEncStatus <;> simp_all))
      all_goals (try (cases hsb : (calib_secureboot env device
        (mode ||| SECUREBOOT_MODE_ENC_MAC_FLAG) 0 (some env.sbootDigestEnc) signature
        true).status <;> simp_all))
      all_goals (try (cases hrz : env.readZoneStatus <;> simp_all))
      all_goals (try (cases hsm : env.sbootMacStatus (env.readZoneBuf 0 |||
        (env.readZoneBuf 1 <<< 8)) <;> simp_all))
      all_goals (try simp_all)

/-- C10 (witness): on a fully successful concrete run with matching MACs,
`is_verified` is true and the theorem yields the success status. -/
theorem C10_witness :
    (calib_verify_external envOk (some dev608) (some msgBuf) (some sigBuf)
        (some pkBuf) false).isVerified = some true
    ∧ (calib_verify_external envOk (some dev608) (some msgBuf) (some sigBuf)
        (some pkBuf) false).status = .ATCA_SUCCESS
    ∧ (calib_secureboot_mac envOk (some dev608) SECUREBOOT_MODE_FULL (some digBuf)
        (some sigBuf) (some numBuf) (some ioBuf) false).isVerified = some true
    ∧ (calib_secureboot_mac envOk (some dev608) SECUREBOOT_MODE_FULL (some digBuf)
        (some sigBuf) (some numBuf) (some ioBuf) false).status = .ATCA_SUCCESS :=
  ⟨by decide,
    C10_verified_implies_success.1 envOk (some dev608) (some msgBuf) (some sigBuf)
      (some pkBuf) false (by decide),
    by decide,
    C10_verified_implies_success.2.2.2.2.2.2 envOk (some dev608)
      SECUREBOOT_MODE_FULL (some digBuf) (some sigBuf) (some numBuf) (some ioBuf)
      false (by decide)⟩
